import Mathlib

/-!
# MySQL scaler (`pkg/scalers/mysql_scaler.go`)

A shallow embedding of the MySQL trigger adapter: configuration resolution
(`parseMySQLMetadata`), connection-string construction, connection set-up, the
constructor `NewMySQLScaler` and the methods `IsActive`, `GetMetrics` and
`GetMetricSpecForScaling`, followed by the properties established about them.

Modelling conventions.
* A Go `map[string]string` is an association list; `m[k]` is `goIndex m k` (the zero
  value `""` for a missing key) and the comma-ok form `v, ok := m[k]` is `List.lookup`.
* A Go `error` is a value of `GoError`, which keeps the format text and the wrapped
  cause apart; `GoError.Error` renders the message.
* `int64`/`uint64` are `Int`/`Nat` with explicit wrap-around where the code can overflow.
* Calls into `database/sql` act on an explicit `SqlState`; logging is not modelled.
-/

namespace MySQLScaler

/-! ## Go standard library: `strconv.ParseInt(s, 10, 64)` -/

namespace strconv

/-- The two sentinel errors of package strconv: `ErrSyntax` and `ErrRange`. -/
inductive ErrKind where
  | ErrSyntax
  | ErrRange
  deriving DecidableEq, Repr

/-- Go's `*strconv.NumError`: the failing function, the input text and the sentinel. -/
structure NumError where
  Func : String
  Num : String
  Err : ErrKind
  deriving DecidableEq, Repr

/-- Go's `syntaxError(fn, str)`. -/
def syntaxError (fn str : String) : NumError := ⟨fn, str, ErrKind.ErrSyntax⟩

/-- Go's `rangeError(fn, str)`. -/
def rangeError (fn str : String) : NumError := ⟨fn, str, ErrKind.ErrRange⟩

/-- Go's `lower(c)`, that is `c | ('x' - 'X')`, on the character code. -/
def lower (c : Nat) : Nat := c ||| 0x20

/-- The digit value the loop of `ParseUint` assigns to one character: `c - '0'` for a
decimal digit, `lower(c) - 'a' + 10` for a letter, and no value otherwise (the
`default` arm, a syntax error). The underscore arm needs `base == 0` and is never
taken for base 10. -/
def digitVal (c : Char) : Option Nat :=
  if '0'.toNat ≤ c.toNat ∧ c.toNat ≤ '9'.toNat then some (c.toNat - '0'.toNat)
  else if 'a'.toNat ≤ lower c.toNat ∧ lower c.toNat ≤ 'z'.toNat then
    some (lower c.toNat - 'a'.toNat + 10)
  else none

/-- The constant `maxUint64`. -/
def maxUint64 : Nat := 2 ^ 64 - 1

/-- The cutoff of `ParseUint` for base 10: `maxUint64/10 + 1`. -/
def cutoff10 : Nat := maxUint64 / 10 + 1

/-- The digit loop of `ParseUint(s, 10, 64)`; `s0` is the whole input (for the error
value) and `n` the accumulator, a `uint64`. -/
def ParseUintLoop (s0 : String) : List Char → Nat → Nat × Option NumError
  | [], n => (n, none)
  | c :: cs, n =>
    match digitVal c with
    | none => (0, some (syntaxError "ParseUint" s0))
    | some d =>
      if d ≥ 10 then (0, some (syntaxError "ParseUint" s0))
      else if n ≥ cutoff10 then (maxUint64, some (rangeError "ParseUint" s0))
      else
        let n10 := (n * 10) % 2 ^ 64
        let n1 := (n10 + d) % 2 ^ 64
        if n1 < n10 ∨ n1 > maxUint64 then (maxUint64, some (rangeError "ParseUint" s0))
        else ParseUintLoop s0 cs n1

/-- Go's `strconv.ParseUint(s, 10, 64)`: the value and the error, both returned. -/
def ParseUint (s : String) : Nat × Option NumError :=
  if s = "" then (0, some (syntaxError "ParseUint" s))
  else ParseUintLoop s s.data 0

/-- Conversion `int64(x)`: reduction into the two's-complement range of 64 bits. -/
def int64 (x : Int) : Int := (x + 2 ^ 63) % 2 ^ 64 - 2 ^ 63

/-- The part of `ParseInt` after the sign has been picked off: `s0` is the whole input,
`neg` the sign and `s` the rest. An error of `ParseUint` other than `ErrRange` is returned
under the name of `ParseInt`; a range error is left to the cutoff tests that follow. -/
def ParseIntBody (s0 : String) (neg : Bool) (s : String) : Int × Option NumError :=
  let r := ParseUint s
  let un := r.1
  let returned : Option NumError :=
    match r.2 with
    | some err =>
      if err.Err ≠ ErrKind.ErrRange then some { err with Func := "ParseInt", Num := s0 }
      else none
    | none => none
  match returned with
  | some err => (0, some err)
  | none =>
    let cutoff : Nat := 2 ^ 63
    if neg = false ∧ un ≥ cutoff then (int64 (cutoff - 1), some (rangeError "ParseInt" s0))
    else if neg = true ∧ un > cutoff then (int64 (-int64 cutoff), some (rangeError "ParseInt" s0))
    else
      let n := int64 un
      (if neg then int64 (-n) else n, none)

/-- Go's `strconv.ParseInt(s, 10, 64)`: the value and the error, both returned. -/
def ParseInt (s : String) : Int × Option NumError :=
  if s = "" then (0, some (syntaxError "ParseInt" s))
  else
    match s.data with
    | '+' :: rest => ParseIntBody s false (String.mk rest)
    | '-' :: rest => ParseIntBody s true (String.mk rest)
    | _ => ParseIntBody s false s

end strconv

/-! ## Go standard library: `strings.Split(s, "/")` -/

/-- Go's `strings.Split` for a separator of one character, on the characters of the
string: the pieces between the separators, `Count(s, sep) + 1` of them. -/
def splitChars (sep : Char) : List Char → List (List Char)
  | [] => [[]]
  | c :: cs =>
    if c = sep then [] :: splitChars sep cs
    else
      match splitChars sep cs with
      | [] => [[c]]
      | seg :: segs => (c :: seg) :: segs

/-- Go's `strings.Split(s, sep)` for a separator `sep` of one character. -/
def stringsSplit (s : String) (sep : Char) : List String :=
  (splitChars sep s.data).map String.mk

/-! ## Errors -/

/-- A Go `error` value as the scaler builds it. -/
inductive GoError where
  /-- The value of `fmt.Errorf(msg)` for a constant text. -/
  | text (msg : String)
  /-- The value of `fmt.Errorf(pfx ++ "%s", cause)`. -/
  | wrapped (pfx : String) (cause : GoError)
  /-- A `*strconv.NumError`. -/
  | num (e : strconv.NumError)
  /-- The error `GetFromAuthOrMeta` returns for the field it did not find. -/
  | notGiven (field : String)
  /-- An error reported by the database driver. -/
  | driver (msg : String)
  deriving DecidableEq, Repr

/-- The message of a sentinel error of strconv. -/
def strconv.ErrKind.Error : strconv.ErrKind → String
  | .ErrSyntax => "invalid syntax"
  | .ErrRange => "value out of range"

/-- Go's `(*NumError).Error()`; `quote` stands for `strconv.Quote`. -/
def strconv.NumError.Error (quote : String → String) (e : strconv.NumError) : String :=
  "strconv." ++ e.Func ++ ": " ++ "parsing " ++ quote e.Num ++ ": " ++ e.Err.Error

/-- The message `err.Error()`. `quote` stands for `strconv.Quote` and `notGivenText`
for the message of the error of `GetFromAuthOrMeta`, neither of which the scaler
defines. -/
def GoError.Error (quote notGivenText : String → String) : GoError → String
  | .text msg => msg
  | .wrapped pfx cause => pfx ++ cause.Error quote notGivenText
  | .num e => e.Error quote
  | .notGiven field => notGivenText field
  | .driver msg => msg

/-! ## Configuration -/

/-- The fields of `ScalerConfig` the MySQL scaler reads. `MetricType` is a
`v2beta2.MetricTargetType`, a string. -/
structure ScalerConfig where
  TriggerMetadata : List (String × String) := []
  AuthParams : List (String × String) := []
  ResolvedEnv : List (String × String) := []
  ScalerIndex : Int := 0
  MetricType : String := ""
  deriving DecidableEq, Repr

/-- Go's map index expression `m[k]` on a `map[string]string`: the zero value `""` when
the key is absent. -/
def goIndex (m : List (String × String)) (k : String) : String :=
  (m.lookup k).getD ""

/-- Functions of other packages of the repository that the scaler calls and whose
bodies are not part of its source file; the scaler is modelled for every choice of
them. -/
structure Helpers where
  /-- Stands for `kedautil.NormalizeString`. -/
  NormalizeString : String → String
  /-- Stands for `GenerateMetricNameWithIndex`. -/
  GenerateMetricNameWithIndex : Int → String → String
  /-- Stands for `GetMetricTargetType`. -/
  GetMetricTargetType : ScalerConfig → Except GoError String

/-- Modelled from the spec: `GetFromAuthOrMeta` is not in the scaler's source file. The
"from-auth-or-meta" lookup resolves a field "by checking authentication parameters
first, then trigger metadata"; a field found in neither is an error. As everywhere in
the scaler, a value counts as found when it is not the empty string. -/
def GetFromAuthOrMeta (config : ScalerConfig) (field : String) : Except GoError String :=
  if goIndex config.AuthParams field ≠ "" then .ok (goIndex config.AuthParams field)
  else if goIndex config.TriggerMetadata field ≠ "" then
    .ok (goIndex config.TriggerMetadata field)
  else .error (.notGiven field)

/-- The struct `mySQLMetadata`; the default is Go's zero value. -/
structure mySQLMetadata where
  connectionString : String := ""
  username : String := ""
  password : String := ""
  host : String := ""
  port : String := ""
  dbName : String := ""
  query : String := ""
  queryValue : Int := 0
  metricName : String := ""
  deriving DecidableEq, Repr

/-- The function `parseMySQLDbNameFromConnectionStr`: the last piece of the connection
string split at `/`, with the literal `dbname` for an empty split. -/
def parseMySQLDbNameFromConnectionStr (connectionString : String) : String :=
  let splitted := stringsSplit connectionString '/'
  let size := splitted.length
  if size > 0 then splitted.getD (size - 1) "" else "dbname"

/-- The `switch` of `parseMySQLMetadata` that resolves the connection locator, on the
descriptor built so far. -/
def resolveLocator (config : ScalerConfig) (m : mySQLMetadata) : Except GoError mySQLMetadata :=
  if goIndex config.AuthParams "connectionString" ≠ "" then
    .ok { m with connectionString := goIndex config.AuthParams "connectionString" }
  else if goIndex config.TriggerMetadata "connectionStringFromEnv" ≠ "" then
    let name := goIndex config.TriggerMetadata "connectionStringFromEnv"
    .ok { m with connectionString := goIndex config.ResolvedEnv name }
  else
    let m := { m with connectionString := "" }
    match GetFromAuthOrMeta config "host" with
    | .error err => .error err
    | .ok host =>
    match GetFromAuthOrMeta config "port" with
    | .error err => .error err
    | .ok port =>
    match GetFromAuthOrMeta config "username" with
    | .error err => .error err
    | .ok username =>
    match GetFromAuthOrMeta config "dbName" with
    | .error err => .error err
    | .ok dbName =>
    let m : mySQLMetadata :=
      { m with host := host, port := port, username := username, dbName := dbName }
    let m : mySQLMetadata :=
      if goIndex config.AuthParams "password" ≠ "" then
        { m with password := goIndex config.AuthParams "password" }
      else if goIndex config.TriggerMetadata "passwordFromEnv" ≠ "" then
        let name := goIndex config.TriggerMetadata "passwordFromEnv"
        { m with password := goIndex config.ResolvedEnv name }
      else m
    if m.password.length = 0 then .error (.text "no password given")
    else .ok m

/-- The function `parseMySQLMetadata`. -/
def parseMySQLMetadata (h : Helpers) (config : ScalerConfig) : Except GoError mySQLMetadata :=
  let m : mySQLMetadata := {}
  match config.TriggerMetadata.lookup "query" with
  | none => .error (.text "no query given")
  | some val =>
  let m := { m with query := val }
  match config.TriggerMetadata.lookup "queryValue" with
  | none => .error (.text "no queryValue given")
  | some val =>
  match strconv.ParseInt val with
  | (_, some err) => .error (.wrapped "queryValue parsing error " (.num err))
  | (queryValue, none) =>
  let m := { m with queryValue := queryValue }
  match resolveLocator config m with
  | .error err => .error err
  | .ok m =>
  let m : mySQLMetadata :=
    if m.connectionString ≠ "" then
      { m with dbName := parseMySQLDbNameFromConnectionStr m.connectionString }
    else m
  let normalized := h.NormalizeString ("mysql-" ++ m.dbName)
  .ok { m with metricName := h.GenerateMetricNameWithIndex config.ScalerIndex normalized }

/-! ## Connection -/

/-- The fields of `mysql.Config` (go-sql-driver) the scaler sets; every other field
keeps the value `mysql.NewConfig()` gives it. -/
structure mysqlConfig where
  User : String := ""
  Passwd : String := ""
  Net : String := ""
  Addr : String := ""
  DBName : String := ""
  deriving DecidableEq, Repr

/-- The method `FormatDSN` of go-sql-driver on a config whose other fields are the
defaults of `NewConfig()`, for which it writes no parameter list:
`[user[:passwd]@][net[(addr)]]/dbname`. -/
def mysqlConfig.FormatDSN (cfg : mysqlConfig) : String :=
  let buf := ""
  let buf :=
    if cfg.User.length > 0 then
      let buf := buf ++ cfg.User
      let buf := if cfg.Passwd.length > 0 then buf ++ ":" ++ cfg.Passwd else buf
      buf ++ "@"
    else buf
  let buf :=
    if cfg.Net.length > 0 then
      let buf := buf ++ cfg.Net
      if cfg.Addr.length > 0 then buf ++ "(" ++ cfg.Addr ++ ")" else buf
    else buf
  buf ++ "/" ++ cfg.DBName

/-- The function `metadataToConnectionStr`. -/
def metadataToConnectionStr (m : mySQLMetadata) : String :=
  if m.connectionString ≠ "" then m.connectionString
  else
    let config : mysqlConfig := {}
    let config := { config with Addr := m.host ++ ":" ++ m.port }
    let config := { config with DBName := m.dbName }
    let config := { config with Passwd := m.password }
    let config := { config with User := m.username }
    let config := { config with Net := "tcp" }
    config.FormatDSN

/-- A handle `*sql.DB`: its identity and the data source name it was opened with. -/
structure DB where
  id : Nat
  dsn : String
  deriving DecidableEq, Repr

/-- How the database behind `database/sql` answers: the error of `sql.Open("mysql", dsn)`
and of `db.Ping()`, if any, for each data source name. -/
structure SqlDriver where
  openError : String → Option GoError
  pingError : String → Option GoError

/-- What the calls into `database/sql` have done so far: the number of `sql.Open` calls
(the connection attempts), the handles they returned, the number of `Ping` calls and
the identities of the handles closed. -/
structure SqlState where
  attempts : Nat := 0
  opened : List DB := []
  pings : Nat := 0
  closed : List Nat := []
  deriving DecidableEq, Repr

/-- The call `sql.Open("mysql", connStr)`. -/
def sqlOpen (drv : SqlDriver) (connStr : String) (w : SqlState) : Except GoError DB × SqlState :=
  match drv.openError connStr with
  | some err => (.error err, { w with attempts := w.attempts + 1 })
  | none =>
    let db : DB := ⟨w.opened.length, connStr⟩
    (.ok db, { w with attempts := w.attempts + 1, opened := w.opened ++ [db] })

/-- The call `db.Ping()`. -/
def DB.Ping (drv : SqlDriver) (db : DB) (w : SqlState) : Option GoError × SqlState :=
  (drv.pingError db.dsn, { w with pings := w.pings + 1 })

/-- The function `newMySQLConnection`. -/
def newMySQLConnection (drv : SqlDriver) (m : mySQLMetadata) (w : SqlState) :
    Except GoError DB × SqlState :=
  let connStr := metadataToConnectionStr m
  match sqlOpen drv connStr w with
  | (.error err, w) => (.error err, w)
  | (.ok db, w) =>
    match db.Ping drv w with
    | (some err, w) => (.error err, w)
    | (none, w) => (.ok db, w)

/-- The struct `mySQLScaler`. -/
structure mySQLScaler where
  metricType : String
  metadata : mySQLMetadata
  connection : DB
  deriving DecidableEq, Repr

/-- The constructor `NewMySQLScaler`. -/
def NewMySQLScaler (h : Helpers) (drv : SqlDriver) (config : ScalerConfig) (w : SqlState) :
    Except GoError mySQLScaler × SqlState :=
  match h.GetMetricTargetType config with
  | .error err => (.error (.wrapped "error getting scaler metric type: " err), w)
  | .ok metricType =>
    match parseMySQLMetadata h config with
    | .error err => (.error (.wrapped "error parsing MySQL metadata: " err), w)
    | .ok m =>
      match newMySQLConnection drv m w with
      | (.error err, w) => (.error (.wrapped "error establishing MySQL connection: " err), w)
      | (.ok conn, w) => (.ok { metricType := metricType, metadata := m, connection := conn }, w)

/-- The call `db.Close()`; `closeError` is the error the driver reports, if any. -/
def DB.Close (closeError : Option GoError) (db : DB) (w : SqlState) : Option GoError × SqlState :=
  (closeError, { w with closed := db.id :: w.closed })

/-- The method `Close` of the scaler. -/
def mySQLScaler.Close (closeError : Option GoError) (s : mySQLScaler) (w : SqlState) :
    Option GoError × SqlState :=
  match s.connection.Close closeError w with
  | (some err, w) => (some err, w)
  | (none, w) => (none, w)

/-! ## Query evaluation, activity and metrics -/

/-- How the database answers `QueryRowContext(ctx, query).Scan(&value)` on a handle: the
`int64` read from the row, or the error of the query, of the scan or of the context. -/
structure QueryBackend where
  scan : DB → String → Except GoError Int

/-- The method `getQueryResult`: the value and the error, both returned. -/
def mySQLScaler.getQueryResult (qb : QueryBackend) (s : mySQLScaler) : Int × Option GoError :=
  match qb.scan s.connection s.metadata.query with
  | .error err => (0, some err)
  | .ok value => (value, none)

/-- The method `IsActive`. -/
def mySQLScaler.IsActive (qb : QueryBackend) (s : mySQLScaler) : Bool × Option GoError :=
  match s.getQueryResult qb with
  | (_, some err) => (false, some err)
  | (messages, none) => (decide (messages > 0), none)

/-- The struct `external_metrics.ExternalMetricValue`, with the fields the scaler sets;
`Value` is the quantity `resource.NewQuantity(num, resource.DecimalSI)` and `Timestamp`
the reading of the clock. -/
structure ExternalMetricValue where
  MetricName : String
  Value : Int
  Timestamp : Nat
  deriving DecidableEq, Repr

/-- The method `GetMetrics`; `now` is what `metav1.Now()` reads. The metric selector is
not used by the method and is left out. -/
def mySQLScaler.GetMetrics (qb : QueryBackend) (now : Nat) (s : mySQLScaler)
    (metricName : String) : List ExternalMetricValue × Option GoError :=
  match s.getQueryResult qb with
  | (_, some err) => ([], some (.wrapped "error inspecting MySQL: " err))
  | (num, none) =>
    let metric : ExternalMetricValue :=
      { MetricName := metricName, Value := num, Timestamp := now }
    ([] ++ [metric], none)

/-- The struct `v2beta2.MetricTarget`: the target type (the field `Type`) and the
quantity, held as `Value` or as `AverageValue`. -/
structure MetricTarget where
  Type_ : String
  Value : Option Int := none
  AverageValue : Option Int := none
  deriving DecidableEq, Repr

/-- The struct `v2beta2.MetricIdentifier`. -/
structure MetricIdentifier where
  Name : String
  deriving DecidableEq, Repr

/-- The struct `v2beta2.ExternalMetricSource`. -/
structure ExternalMetricSource where
  Metric : MetricIdentifier
  Target : MetricTarget
  deriving DecidableEq, Repr

/-- The struct `v2beta2.MetricSpec`, with the fields the scaler sets: the source type
(the field `Type`) and the external source. -/
structure MetricSpec where
  Type_ : String
  External : Option ExternalMetricSource
  deriving DecidableEq, Repr

/-- Modelled from the spec: the constant `externalMetricType` is declared outside the
scaler's source file. The scaler "declares one external metric"; in the autoscaling API
that metric source type is written `External`. -/
def externalMetricType : String := "External"

/-- Modelled from the spec: `GetMetricTarget` is not in the scaler's source file. The
target is "the threshold value interpreted under the active target-type policy
(average-value vs. value)": the quantity is held as `Value` under the target type
`Value` and as `AverageValue` otherwise. -/
def GetMetricTarget (metricType : String) (metricValue : Int) : MetricTarget :=
  if metricType = "Value" then { Type_ := metricType, Value := some metricValue }
  else { Type_ := metricType, AverageValue := some metricValue }

/-- The method `GetMetricSpecForScaling`. It has no access to the database. -/
def mySQLScaler.GetMetricSpecForScaling (s : mySQLScaler) : List MetricSpec :=
  let externalMetric : ExternalMetricSource :=
    { Metric := { Name := s.metadata.metricName },
      Target := GetMetricTarget s.metricType s.metadata.queryValue }
  let metricSpec : MetricSpec := { External := some externalMetric, Type_ := externalMetricType }
  [metricSpec]

/-! ## Metric names -/

/-- The verb `%d` of `fmt.Sprintf` on an `int`: the decimal digits, after a minus sign
for a negative number. -/
def formatInt (i : Int) : String :=
  if i < 0 then String.mk ('-' :: Nat.toDigits 10 i.natAbs)
  else String.mk (Nat.toDigits 10 i.toNat)

/-- Modelled from the spec: `GenerateMetricNameWithIndex` is not in the scaler's source
file. The metric name is built by "combining" the normalized name "with a caller-supplied
per-trigger ordinal index" and contains that index: the index is written in decimal in
front of the name, as `s<index>-<name>`. -/
def GenerateMetricNameWithIndex (scalerIndex : Int) (metricName : String) : String :=
  "s" ++ formatInt scalerIndex ++ "-" ++ metricName

/-! ## Specification-side definitions -/

/-- A decimal digit, `0` to `9`. -/
def isDigit (c : Char) : Bool := decide ('0'.toNat ≤ c.toNat ∧ c.toNat ≤ '9'.toNat)

/-- The number a sequence of decimal digits denotes. -/
def decimalValue (ds : List Char) : Nat :=
  ds.foldl (fun a c => a * 10 + (c.toNat - '0'.toNat)) 0

/-- Specification of "parses as a base-10 signed 64-bit integer": an optional sign, then
at least one character, all of them decimal digits, denoting a value between `-2^63` and
`2^63 - 1`; the result is that value, and `none` for every other text. -/
def base10Int64 (s : String) : Option Int :=
  let signed : Bool × List Char :=
    match s.data with
    | '+' :: rest => (false, rest)
    | '-' :: rest => (true, rest)
    | cs => (false, cs)
  let ds := signed.2
  if ds ≠ [] ∧ ds.all isDigit = true then
    let z : Int := if signed.1 then -(decimalValue ds : Int) else (decimalValue ds : Int)
    if -(2 : Int) ^ 63 ≤ z ∧ z ≤ 2 ^ 63 - 1 then some z else none
  else none

/-- Specification of the "from-auth-or-meta" lookup of a field: the authentication
parameter when it is not empty, the trigger metadata value otherwise. -/
def authOrMeta (config : ScalerConfig) (field : String) : String :=
  if goIndex config.AuthParams field ≠ "" then goIndex config.AuthParams field
  else goIndex config.TriggerMetadata field

/-- Specification of the password of the structured locator: the authentication
parameter `password` when it is not empty, otherwise the value the resolved environment
holds under the name given as `passwordFromEnv`, and empty when no name is given. -/
def specPassword (config : ScalerConfig) : String :=
  if goIndex config.AuthParams "password" ≠ "" then goIndex config.AuthParams "password"
  else if goIndex config.TriggerMetadata "passwordFromEnv" ≠ "" then
    goIndex config.ResolvedEnv (goIndex config.TriggerMetadata "passwordFromEnv")
  else ""

/-! ## Concrete instances used to evaluate the definitions -/

/-- An instance of the helper functions: the metric type `Utilization` is refused (an
external metric is declared under `Value` or `AverageValue`), an absent one is
`AverageValue`; metric names are left as they are and carry the index in front. -/
def sampleHelpers : Helpers where
  NormalizeString := fun s => s
  GenerateMetricNameWithIndex := fun i s => "s" ++ toString i ++ "-" ++ s
  GetMetricTargetType := fun c =>
    if c.MetricType = "Utilization" then .error (.text "unsupported metric type")
    else if c.MetricType = "" then .ok "AverageValue"
    else .ok c.MetricType

/-- The instance of the helper functions that names metrics by
`GenerateMetricNameWithIndex`. -/
def namingHelpers : Helpers :=
  { sampleHelpers with GenerateMetricNameWithIndex := GenerateMetricNameWithIndex }

/-- A database that returns the same value for every query. -/
def constantBackend (v : Int) : QueryBackend where
  scan := fun _ _ => .ok v

/-- A database that accepts every data source name and fails every probe. -/
def unreachableDriver : SqlDriver where
  openError := fun _ => none
  pingError := fun _ => some (.driver "connection refused")

/-- A database that accepts every data source name and answers every probe. -/
def healthyDriver : SqlDriver where
  openError := fun _ => none
  pingError := fun _ => none

/-! ## Lemmas on `strconv.ParseInt` -/

theorem digitVal_of_isDigit (c : Char) (hc : isDigit c = true) :
    strconv.digitVal c = some (c.toNat - '0'.toNat) ∧ c.toNat - '0'.toNat < 10 := by
  simp only [isDigit, decide_eq_true_eq] at hc
  have h0 : '0'.toNat = 48 := by decide
  have h9 : '9'.toNat = 57 := by decide
  rw [h0, h9] at hc
  constructor
  · simp [strconv.digitVal, h0, h9, hc]
  · rw [h0]; omega

theorem digitVal_of_not_isDigit (c : Char) (hc : isDigit c = false) :
    strconv.digitVal c = none ∨ ∃ d, strconv.digitVal c = some d ∧ d ≥ 10 := by
  simp only [isDigit, decide_eq_false_iff_not] at hc
  unfold strconv.digitVal
  rw [if_neg hc]
  split
  · right; exact ⟨_, rfl, by omega⟩
  · left; rfl

theorem foldl_dec_ge (ds : List Char) (n : Nat) :
    n ≤ ds.foldl (fun a c => a * 10 + (c.toNat - '0'.toNat)) n := by
  induction ds generalizing n with
  | nil => simp
  | cons c cs ih =>
    simp only [List.foldl_cons]
    have := ih (n * 10 + (c.toNat - '0'.toNat))
    omega

theorem ParseUintLoop_digits (s0 : String) (ds : List Char) (n : Nat)
    (hds : ds.all isDigit = true) (hn : n < 2 ^ 64) :
    strconv.ParseUintLoop s0 ds n =
      if ds.foldl (fun a c => a * 10 + (c.toNat - '0'.toNat)) n < 2 ^ 64 then
        (ds.foldl (fun a c => a * 10 + (c.toNat - '0'.toNat)) n, none)
      else (strconv.maxUint64, some (strconv.rangeError "ParseUint" s0)) := by
  induction ds generalizing n with
  | nil => simp only [strconv.ParseUintLoop, List.foldl_nil, if_pos hn]
  | cons c cs ih =>
    simp only [List.all_cons, Bool.and_eq_true] at hds
    obtain ⟨hd, hd10⟩ := digitVal_of_isDigit c hds.1
    have hge := foldl_dec_ge cs (n * 10 + (c.toNat - '0'.toNat))
    simp only [strconv.ParseUintLoop, hd, List.foldl_cons]
    have hcut : strconv.cutoff10 = 1844674407370955162 := by decide
    have hmax : strconv.maxUint64 = 18446744073709551615 := by decide
    rw [if_neg (by omega)]
    by_cases h1 : n ≥ strconv.cutoff10
    · rw [if_pos h1, if_neg (by omega)]
    · rw [if_neg h1]
      have hn10 : (n * 10) % 2 ^ 64 = n * 10 := Nat.mod_eq_of_lt (by omega)
      simp only [hn10]
      by_cases h2 : n * 10 + (c.toNat - '0'.toNat) < 2 ^ 64
      · have hn1 : (n * 10 + (c.toNat - '0'.toNat)) % 2 ^ 64 = n * 10 + (c.toNat - '0'.toNat) :=
          Nat.mod_eq_of_lt h2
        rw [hn1, if_neg (by omega)]
        exact ih _ hds.2 h2
      · have hn1 : (n * 10 + (c.toNat - '0'.toNat)) % 2 ^ 64 < n * 10 := by omega
        rw [if_pos (Or.inl hn1), if_neg (by omega)]

theorem ParseUintLoop_nondigit (s0 : String) (ds : List Char) (n : Nat)
    (hds : ds.all isDigit = false) :
    strconv.ParseUintLoop s0 ds n = (0, some (strconv.syntaxError "ParseUint" s0)) ∨
    strconv.ParseUintLoop s0 ds n = (strconv.maxUint64, some (strconv.rangeError "ParseUint" s0)) := by
  induction ds generalizing n with
  | nil => simp at hds
  | cons c cs ih =>
    unfold strconv.ParseUintLoop
    cases hc : isDigit c with
    | false =>
      rcases digitVal_of_not_isDigit c hc with h | ⟨d, h, hd⟩
      · simp [h]
      · simp [h, hd]
    | true =>
      have hcs : cs.all isDigit = false := by simpa [hc] using hds
      obtain ⟨hd, hd10⟩ := digitVal_of_isDigit c hc
      simp only [hd]
      split
      · left; rfl
      · split
        · right; rfl
        · split
          · right; rfl
          · exact ih _ hcs

theorem mk_eq_empty_iff (ds : List Char) : String.mk ds = "" ↔ ds = [] := by
  constructor
  · intro h
    have := congrArg String.data h
    simpa using this
  · intro h
    subst h
    rfl

theorem ParseIntBody_digits (s0 : String) (neg : Bool) (ds : List Char)
    (hne : ds ≠ []) (hds : ds.all isDigit = true) :
    strconv.ParseIntBody s0 neg (String.mk ds) =
      if (if neg then decimalValue ds ≤ 2 ^ 63 else decimalValue ds < 2 ^ 63) then
        ((if neg then -(decimalValue ds : Int) else (decimalValue ds : Int)), none)
      else
        ((if neg then -(2 : Int) ^ 63 else 2 ^ 63 - 1), some (strconv.rangeError "ParseInt" s0)) := by
  have hU : strconv.ParseUint (String.mk ds) =
      if decimalValue ds < 2 ^ 64 then (decimalValue ds, none)
      else (strconv.maxUint64, some (strconv.rangeError "ParseUint" (String.mk ds))) := by
    unfold strconv.ParseUint
    rw [if_neg (by rw [mk_eq_empty_iff]; exact hne)]
    exact ParseUintLoop_digits _ ds 0 hds (by norm_num)
  have hmax : strconv.maxUint64 = 18446744073709551615 := by decide
  unfold strconv.ParseIntBody
  simp only [hU, hmax, strconv.int64]
  generalize decimalValue ds = v
  cases neg
  · by_cases h64 : v < 18446744073709551616
    · by_cases h63 : v < 9223372036854775808
      · have : ((v : Int) + 9223372036854775808) % 18446744073709551616 - 9223372036854775808 = v := by
          omega
        simp [h64, h63, this]
      · simp [h64, h63]
    · have h63 : ¬ v < 9223372036854775808 := by omega
      simp [h64, h63, strconv.rangeError]
  · by_cases h64 : v < 18446744073709551616
    · by_cases h63 : v ≤ 9223372036854775808
      · have : (9223372036854775808 - ((v : Int) + 9223372036854775808) % 18446744073709551616
            + 9223372036854775808) % 18446744073709551616 - 9223372036854775808 = -(v : Int) := by
          omega
        simp [h64, h63, this]
      · simp [h64, h63]
    · have h63 : ¬ v ≤ 9223372036854775808 := by omega
      simp [h64, h63, strconv.rangeError]

theorem ParseIntBody_malformed (s0 : String) (neg : Bool) (ds : List Char)
    (hbad : ds = [] ∨ ds.all isDigit = false) :
    ∃ z k, strconv.ParseIntBody s0 neg (String.mk ds) = (z, some ⟨"ParseInt", s0, k⟩) := by
  have hU : strconv.ParseUint (String.mk ds) = (0, some (strconv.syntaxError "ParseUint" (String.mk ds))) ∨
      strconv.ParseUint (String.mk ds) =
        (strconv.maxUint64, some (strconv.rangeError "ParseUint" (String.mk ds))) := by
    unfold strconv.ParseUint
    by_cases he : ds = []
    · left
      rw [if_pos ((mk_eq_empty_iff ds).mpr he)]
    · rw [if_neg (by rw [mk_eq_empty_iff]; exact he)]
      rcases hbad with h | h
      · exact absurd h he
      · exact ParseUintLoop_nondigit _ ds 0 h
  have hmax : strconv.maxUint64 = 18446744073709551615 := by decide
  unfold strconv.ParseIntBody
  rcases hU with h | h
  · simp [h, strconv.syntaxError]
  · cases neg <;> simp [h, hmax, strconv.rangeError]

theorem ParseIntBody_spec (s0 : String) (neg : Bool) (ds : List Char) :
    (∀ z, (if ds ≠ [] ∧ ds.all isDigit = true then
        (if -(2 : Int) ^ 63 ≤ (if neg then -(decimalValue ds : Int) else (decimalValue ds : Int)) ∧
            (if neg then -(decimalValue ds : Int) else (decimalValue ds : Int)) ≤ 2 ^ 63 - 1
          then some (if neg then -(decimalValue ds : Int) else (decimalValue ds : Int)) else none)
        else none) = some z → strconv.ParseIntBody s0 neg (String.mk ds) = (z, none)) ∧
    ((if ds ≠ [] ∧ ds.all isDigit = true then
        (if -(2 : Int) ^ 63 ≤ (if neg then -(decimalValue ds : Int) else (decimalValue ds : Int)) ∧
            (if neg then -(decimalValue ds : Int) else (decimalValue ds : Int)) ≤ 2 ^ 63 - 1
          then some (if neg then -(decimalValue ds : Int) else (decimalValue ds : Int)) else none)
        else none) = none →
      ∃ z k, strconv.ParseIntBody s0 neg (String.mk ds) = (z, some ⟨"ParseInt", s0, k⟩)) := by
  by_cases hgood : ds ≠ [] ∧ ds.all isDigit = true
  · rw [if_pos hgood, ParseIntBody_digits s0 neg ds hgood.1 hgood.2]
    generalize decimalValue ds = v
    cases neg
    · by_cases h : v < 2 ^ 63
      · have hr : -(2 : Int) ^ 63 ≤ (v : Int) ∧ (v : Int) ≤ 2 ^ 63 - 1 := by omega
        simp only [Bool.false_eq_true, if_false, if_pos h, if_pos hr]
        constructor
        · intro z hz
          simp only [Option.some.injEq] at hz
          rw [hz]
        · intro hz
          simp at hz
      · have hr : ¬ (-(2 : Int) ^ 63 ≤ (v : Int) ∧ (v : Int) ≤ 2 ^ 63 - 1) := by omega
        simp only [Bool.false_eq_true, if_false, if_neg h, if_neg hr]
        constructor
        · intro z hz
          simp at hz
        · intro _
          exact ⟨_, _, rfl⟩
    · by_cases h : v ≤ 2 ^ 63
      · have hr : -(2 : Int) ^ 63 ≤ -(v : Int) ∧ -(v : Int) ≤ 2 ^ 63 - 1 := by omega
        simp only [if_true, if_pos h, if_pos hr]
        constructor
        · intro z hz
          simp only [Option.some.injEq] at hz
          rw [hz]
        · intro hz
          simp at hz
      · have hr : ¬ (-(2 : Int) ^ 63 ≤ -(v : Int) ∧ -(v : Int) ≤ 2 ^ 63 - 1) := by omega
        simp only [if_true, if_neg h, if_neg hr]
        constructor
        · intro z hz
          simp at hz
        · intro _
          exact ⟨_, _, rfl⟩
  · rw [if_neg hgood]
    constructor
    · intro z hz
      simp at hz
    · intro _
      apply ParseIntBody_malformed
      by_cases he : ds = []
      · exact Or.inl he
      · right
        cases hall : ds.all isDigit with
        | false => rfl
        | true => exact absurd ⟨he, hall⟩ hgood

theorem ParseInt_spec (s : String) :
    (∀ z, base10Int64 s = some z → strconv.ParseInt s = (z, none)) ∧
    (base10Int64 s = none → ∃ z k, strconv.ParseInt s = (z, some ⟨"ParseInt", s, k⟩)) := by
  rcases s with ⟨cs⟩
  cases cs with
  | nil =>
    constructor
    · intro z hz
      simp [base10Int64] at hz
    · intro _
      exact ⟨0, strconv.ErrKind.ErrSyntax, rfl⟩
  | cons c rest =>
    have hne : (String.mk (c :: rest) = "") = False := by
      simp [mk_eq_empty_iff]
    by_cases hp : c = '+'
    · subst hp
      have h := ParseIntBody_spec (String.mk ('+' :: rest)) false rest
      simpa [strconv.ParseInt, base10Int64, hne] using h
    · by_cases hm : c = '-'
      · subst hm
        have h := ParseIntBody_spec (String.mk ('-' :: rest)) true rest
        simpa [strconv.ParseInt, base10Int64, hne] using h
      · have h := ParseIntBody_spec (String.mk (c :: rest)) false (c :: rest)
        have e1 : strconv.ParseInt (String.mk (c :: rest)) =
            strconv.ParseIntBody (String.mk (c :: rest)) false (String.mk (c :: rest)) := by
          unfold strconv.ParseInt
          rw [if_neg (by rw [hne]; exact not_false)]
          split
          · rename_i heq; simp at heq; exact absurd heq.1 hp
          · rename_i heq; simp at heq; exact absurd heq.1 hm
          · rfl
        have e2 : (match (String.mk (c :: rest)).data with
            | '+' :: r => (false, r)
            | '-' :: r => (true, r)
            | r => (false, r)) = (false, c :: rest) := by
          split
          · rename_i heq; simp at heq; exact absurd heq.1 hp
          · rename_i heq; simp at heq; exact absurd heq.1 hm
          · rfl
        unfold base10Int64
        simp only [e1, e2]
        simpa using h

/-! ## Lemmas on the configuration resolver -/

theorem string_length_eq_zero (s : String) : s.length = 0 ↔ s = "" := by
  constructor
  · intro h
    cases s with
    | mk d =>
      have hd : d = [] := List.length_eq_zero.mp h
      subst hd
      rfl
  · intro h
    subst h
    rfl

theorem GetFromAuthOrMeta_eq (config : ScalerConfig) (field : String) :
    GetFromAuthOrMeta config field =
      if authOrMeta config field ≠ "" then .ok (authOrMeta config field)
      else .error (.notGiven field) := by
  unfold GetFromAuthOrMeta authOrMeta
  by_cases ha : goIndex config.AuthParams field = ""
  · by_cases hm : goIndex config.TriggerMetadata field = "" <;> simp [ha, hm]
  · simp [ha]

theorem GetFromAuthOrMeta_ok_ne_empty (config : ScalerConfig) (field x : String)
    (hx : GetFromAuthOrMeta config field = .ok x) : x ≠ "" ∧ x = authOrMeta config field := by
  rw [GetFromAuthOrMeta_eq] at hx
  by_cases ha : authOrMeta config field = ""
  · simp [ha] at hx
  · simp [ha] at hx
    subst hx
    exact ⟨ha, rfl⟩

theorem parse_after_values (h : Helpers) (config : ScalerConfig) (q v : String) (n : Int)
    (hq : config.TriggerMetadata.lookup "query" = some q)
    (hv : config.TriggerMetadata.lookup "queryValue" = some v)
    (hn : strconv.ParseInt v = (n, none)) :
    parseMySQLMetadata h config =
      match resolveLocator config { query := q, queryValue := n } with
      | .error err => .error err
      | .ok m =>
        .ok { (if m.connectionString ≠ "" then
                { m with dbName := parseMySQLDbNameFromConnectionStr m.connectionString }
              else m) with
          metricName := h.GenerateMetricNameWithIndex config.ScalerIndex
            (h.NormalizeString ("mysql-" ++
              (if m.connectionString ≠ "" then
                { m with dbName := parseMySQLDbNameFromConnectionStr m.connectionString }
              else m).dbName)) } := by
  simp only [parseMySQLMetadata, hq, hv, hn]

theorem resolveLocator_structured (config : ScalerConfig) (m : mySQLMetadata)
    (host port username dbName : String) (hm : m.password = "")
    (hc : goIndex config.AuthParams "connectionString" = "")
    (he : goIndex config.TriggerMetadata "connectionStringFromEnv" = "")
    (hh : GetFromAuthOrMeta config "host" = .ok host)
    (hp : GetFromAuthOrMeta config "port" = .ok port)
    (hu : GetFromAuthOrMeta config "username" = .ok username)
    (hd : GetFromAuthOrMeta config "dbName" = .ok dbName) :
    resolveLocator config m =
      if specPassword config = "" then .error (.text "no password given")
      else .ok { m with connectionString := "", host := host, port := port,
                        username := username, dbName := dbName,
                        password := specPassword config } := by
  unfold resolveLocator specPassword
  simp only [hc, he, hh, hp, hu, hd, ne_eq, not_true_eq_false, if_false, string_length_eq_zero]
  by_cases h1 : goIndex config.AuthParams "password" = ""
  · by_cases h2 : goIndex config.TriggerMetadata "passwordFromEnv" = ""
    · simp [h1, h2, hm]
    · simp [h1, h2]
  · simp [h1]

theorem parse_structured (h : Helpers) (config : ScalerConfig) (q v : String) (n : Int)
    (host port username dbName : String)
    (hq : config.TriggerMetadata.lookup "query" = some q)
    (hv : config.TriggerMetadata.lookup "queryValue" = some v)
    (hn : strconv.ParseInt v = (n, none))
    (hc : goIndex config.AuthParams "connectionString" = "")
    (he : goIndex config.TriggerMetadata "connectionStringFromEnv" = "")
    (hh : GetFromAuthOrMeta config "host" = .ok host)
    (hp : GetFromAuthOrMeta config "port" = .ok port)
    (hu : GetFromAuthOrMeta config "username" = .ok username)
    (hd : GetFromAuthOrMeta config "dbName" = .ok dbName) :
    parseMySQLMetadata h config =
      if specPassword config = "" then .error (.text "no password given")
      else .ok { host := host, port := port, username := username, dbName := dbName,
                 password := specPassword config, query := q, queryValue := n,
                 metricName := h.GenerateMetricNameWithIndex config.ScalerIndex
                   (h.NormalizeString ("mysql-" ++ dbName)) } := by
  rw [parse_after_values h config q v n hq hv hn,
    resolveLocator_structured config _ host port username dbName rfl hc he hh hp hu hd]
  by_cases hpw : specPassword config = ""
  · simp [hpw]
  · simp [hpw]

theorem parse_structured_missing (h : Helpers) (config : ScalerConfig) (q v : String) (n : Int)
    (hq : config.TriggerMetadata.lookup "query" = some q)
    (hv : config.TriggerMetadata.lookup "queryValue" = some v)
    (hn : strconv.ParseInt v = (n, none))
    (hc : goIndex config.AuthParams "connectionString" = "")
    (he : goIndex config.TriggerMetadata "connectionStringFromEnv" = "")
    (hmiss : ∃ f ∈ ["host", "port", "username", "dbName"], authOrMeta config f = "") :
    ∃ f ∈ ["host", "port", "username", "dbName"],
      authOrMeta config f = "" ∧ parseMySQLMetadata h config = .error (.notGiven f) := by
  rw [parse_after_values h config q v n hq hv hn]
  unfold resolveLocator
  simp only [hc, he, ne_eq, not_true_eq_false, if_false, GetFromAuthOrMeta_eq]
  by_cases h1 : authOrMeta config "host" = ""
  · exact ⟨"host", by simp, h1, by simp [h1]⟩
  by_cases h2 : authOrMeta config "port" = ""
  · exact ⟨"port", by simp, h2, by simp [h1, h2]⟩
  by_cases h3 : authOrMeta config "username" = ""
  · exact ⟨"username", by simp, h3, by simp [h1, h2, h3]⟩
  by_cases h4 : authOrMeta config "dbName" = ""
  · exact ⟨"dbName", by simp, h4, by simp [h1, h2, h3, h4]⟩
  · obtain ⟨f, hf, hfe⟩ := hmiss
    simp only [List.mem_cons, List.mem_singleton, List.not_mem_nil, or_false] at hf
    rcases hf with rfl | rfl | rfl | rfl
    · exact absurd hfe h1
    · exact absurd hfe h2
    · exact absurd hfe h3
    · exact absurd hfe h4

theorem NewMySQLScaler_of_parse_error (h : Helpers) (drv : SqlDriver) (config : ScalerConfig)
    (w : SqlState) (e : GoError) (he : parseMySQLMetadata h config = .error e) :
    NewMySQLScaler h drv config w =
      match h.GetMetricTargetType config with
      | .error e0 => (.error (.wrapped "error getting scaler metric type: " e0), w)
      | .ok _ => (.error (.wrapped "error parsing MySQL metadata: " e), w) := by
  unfold NewMySQLScaler
  cases h.GetMetricTargetType config with
  | error e0 => rfl
  | ok t => simp [he]

/-! ## The configuration resolver: properties -/

/-- Claim C1. When the trigger metadata has a query and a queryValue that parses as a
base-10 int64 and the authentication parameter connectionString is not empty,
parseMySQLMetadata succeeds and the descriptor carries that connection string verbatim;
the structured fields stay empty and nothing of host, port, username, dbName, password,
passwordFromEnv or connectionStringFromEnv enters the result. -/
theorem explicit_connection_string_wins (h : Helpers) (config : ScalerConfig) (q v : String)
    (n : Int)
    (hq : config.TriggerMetadata.lookup "query" = some q)
    (hv : config.TriggerMetadata.lookup "queryValue" = some v)
    (hn : strconv.ParseInt v = (n, none))
    (hc : goIndex config.AuthParams "connectionString" ≠ "") :
    ∃ m, parseMySQLMetadata h config = .ok m ∧
      m.connectionString = goIndex config.AuthParams "connectionString" ∧
      m = { connectionString := goIndex config.AuthParams "connectionString"
            dbName := parseMySQLDbNameFromConnectionStr
              (goIndex config.AuthParams "connectionString")
            query := q
            queryValue := n
            metricName := h.GenerateMetricNameWithIndex config.ScalerIndex
              (h.NormalizeString ("mysql-" ++ parseMySQLDbNameFromConnectionStr
                (goIndex config.AuthParams "connectionString"))) } := by
  refine ⟨_, ?_, rfl, rfl⟩
  simp [parseMySQLMetadata, hq, hv, hn, resolveLocator, hc]

/-- Witness of C1: a configuration with an explicit connection string whose structured
fields are absent or empty. -/
theorem explicit_connection_string_wins_witness :
    ∃ m, parseMySQLMetadata sampleHelpers
        { TriggerMetadata := [("query", "SELECT 1"), ("queryValue", "5"), ("host", "")],
          AuthParams := [("connectionString", "u:p@tcp(h:3306)/db")] } = .ok m ∧
      m.connectionString = "u:p@tcp(h:3306)/db" :=
  (explicit_connection_string_wins sampleHelpers
      { TriggerMetadata := [("query", "SELECT 1"), ("queryValue", "5"), ("host", "")],
        AuthParams := [("connectionString", "u:p@tcp(h:3306)/db")] }
      "SELECT 1" "5" 5 (by decide) (by decide) (by decide) (by decide)).imp
    (fun _ hm => ⟨hm.1, hm.2.1⟩)

/-- Claim C3. Without a query key in the trigger metadata parseMySQLMetadata fails with
the error "no query given", whatever the rest of the configuration holds. -/
theorem missing_query_is_an_error (h : Helpers) (config : ScalerConfig)
    (hq : config.TriggerMetadata.lookup "query" = none) :
    parseMySQLMetadata h config = .error (.text "no query given") ∧
      ∀ quote t, (GoError.text "no query given").Error quote t = "no query given" := by
  constructor
  · simp [parseMySQLMetadata, hq]
  · intro quote t
    rfl

/-- Witness of C3: a configuration that has everything but the query. -/
theorem missing_query_is_an_error_witness :
    parseMySQLMetadata sampleHelpers
      { TriggerMetadata := [("queryValue", "x")],
        AuthParams := [("connectionString", "u:p@tcp(h:3306)/db")] } =
      .error (.text "no query given") :=
  (missing_query_is_an_error sampleHelpers
    { TriggerMetadata := [("queryValue", "x")],
      AuthParams := [("connectionString", "u:p@tcp(h:3306)/db")] } (by decide)).1

/-- Claim C4. With a query present: an absent queryValue is the error "no queryValue
given", and a queryValue that is not a base-10 signed 64-bit integer is the error that
wraps the failure of strconv.ParseInt, its message starting "queryValue parsing error ".
Non-numeric text, "5.0", the empty string and a value beyond the int64 range are such
texts. -/
theorem query_value_errors (h : Helpers) (config : ScalerConfig) (q : String)
    (hq : config.TriggerMetadata.lookup "query" = some q) :
    (config.TriggerMetadata.lookup "queryValue" = none →
      parseMySQLMetadata h config = .error (.text "no queryValue given")) ∧
    (∀ v, config.TriggerMetadata.lookup "queryValue" = some v → base10Int64 v = none →
      ∃ e : strconv.NumError, (strconv.ParseInt v).2 = some e ∧
        e.Func = "ParseInt" ∧ e.Num = v ∧
        parseMySQLMetadata h config =
          .error (.wrapped "queryValue parsing error " (.num e)) ∧
        (∀ quote t, (GoError.wrapped "queryValue parsing error " (.num e)).Error quote t =
          "queryValue parsing error " ++ e.Error quote) ∧
        ∀ drv w, ∃ e1, NewMySQLScaler h drv config w = (.error e1, w)) ∧
    (base10Int64 "abc" = none ∧ base10Int64 "5.0" = none ∧ base10Int64 "" = none ∧
      base10Int64 "9223372036854775808" = none ∧ base10Int64 "-9223372036854775809" = none) := by
  refine ⟨?_, ?_, ?_⟩
  · intro hv
    simp [parseMySQLMetadata, hq, hv]
  · intro v hv hbad
    obtain ⟨z, k, hz⟩ := (ParseInt_spec v).2 hbad
    have herr : parseMySQLMetadata h config =
        .error (.wrapped "queryValue parsing error " (.num ⟨"ParseInt", v, k⟩)) := by
      simp [parseMySQLMetadata, hq, hv, hz]
    refine ⟨⟨"ParseInt", v, k⟩, by rw [hz], rfl, rfl, herr, ?_, ?_⟩
    · intro quote t
      rfl
    · intro drv w
      rw [NewMySQLScaler_of_parse_error h drv config w _ herr]
      cases h.GetMetricTargetType config with
      | error e0 => exact ⟨_, rfl⟩
      | ok t => exact ⟨_, rfl⟩
  · decide

/-- Witness of C4: the decimal text "5.0" as queryValue. -/
theorem query_value_errors_witness :
    ∃ e : strconv.NumError, e.Num = "5.0" ∧
      parseMySQLMetadata sampleHelpers
        { TriggerMetadata := [("query", "SELECT 1"), ("queryValue", "5.0")],
          AuthParams := [("connectionString", "u:p@tcp(h:3306)/db")] } =
        .error (.wrapped "queryValue parsing error " (.num e)) :=
  ((query_value_errors sampleHelpers
      { TriggerMetadata := [("query", "SELECT 1"), ("queryValue", "5.0")],
        AuthParams := [("connectionString", "u:p@tcp(h:3306)/db")] }
      "SELECT 1" (by decide)).2.1 "5.0" (by decide) (by decide)).imp
    (fun _ he => ⟨he.2.2.1, he.2.2.2.1⟩)

/-- Claim C7. With a query and a valid queryValue, an empty or absent authentication
parameter connectionString and a non-empty connectionStringFromEnv in the trigger
metadata, parseMySQLMetadata succeeds and the connection string is the value the
resolved environment holds under that name; host, port, username, dbName and password
are not read and stay empty in the descriptor. -/
theorem env_connection_string (h : Helpers) (config : ScalerConfig) (q v : String) (n : Int)
    (hq : config.TriggerMetadata.lookup "query" = some q)
    (hv : config.TriggerMetadata.lookup "queryValue" = some v)
    (hn : strconv.ParseInt v = (n, none))
    (hc : goIndex config.AuthParams "connectionString" = "")
    (he : goIndex config.TriggerMetadata "connectionStringFromEnv" ≠ "") :
    ∃ m, parseMySQLMetadata h config = .ok m ∧
      m.connectionString =
        goIndex config.ResolvedEnv (goIndex config.TriggerMetadata "connectionStringFromEnv") ∧
      m.host = "" ∧ m.port = "" ∧ m.username = "" ∧ m.password = "" ∧
      m.query = q ∧ m.queryValue = n := by
  rw [parse_after_values h config q v n hq hv hn]
  simp only [resolveLocator, hc, he, ne_eq, not_true_eq_false, not_false_eq_true, if_true,
    if_false]
  by_cases hr : goIndex config.ResolvedEnv
      (goIndex config.TriggerMetadata "connectionStringFromEnv") = ""
  · simp [hr]
  · simp [hr]

/-- Witness of C7: the connection string comes from the environment and no structured
field is given. -/
theorem env_connection_string_witness :
    ∃ m, parseMySQLMetadata sampleHelpers
        { TriggerMetadata :=
            [("query", "SELECT 1"), ("queryValue", "5"), ("connectionStringFromEnv", "CONN")],
          ResolvedEnv := [("CONN", "u:p@tcp(h:3306)/db")] } = .ok m ∧
      m.connectionString = "u:p@tcp(h:3306)/db" :=
  (env_connection_string sampleHelpers
      { TriggerMetadata :=
          [("query", "SELECT 1"), ("queryValue", "5"), ("connectionStringFromEnv", "CONN")],
        ResolvedEnv := [("CONN", "u:p@tcp(h:3306)/db")] }
      "SELECT 1" "5" 5 (by decide) (by decide) (by decide) (by decide) (by decide)).imp
    (fun _ hm => ⟨hm.1, hm.2.1⟩)

theorem authOrMeta_eq_empty_iff (config : ScalerConfig) (field : String) :
    authOrMeta config field = "" ↔
      goIndex config.AuthParams field = "" ∧ goIndex config.TriggerMetadata field = "" := by
  unfold authOrMeta
  by_cases ha : goIndex config.AuthParams field = ""
  · simp [ha]
  · simp [ha]

theorem specPassword_eq_empty_iff (config : ScalerConfig) :
    specPassword config = "" ↔
      goIndex config.AuthParams "password" = "" ∧
        (goIndex config.TriggerMetadata "passwordFromEnv" = "" ∨
          goIndex config.ResolvedEnv (goIndex config.TriggerMetadata "passwordFromEnv") = "") := by
  unfold specPassword
  by_cases ha : goIndex config.AuthParams "password" = ""
  · by_cases hm : goIndex config.TriggerMetadata "passwordFromEnv" = ""
    · simp [ha, hm]
    · simp [ha, hm]
  · simp [ha]

/-- Claim C5. In the structured-field fallback (query present, queryValue valid, no
connection string in the authentication parameters, no connectionStringFromEnv): when one
of host, port, username, dbName is missing or empty in both the authentication parameters
and the trigger metadata, parseMySQLMetadata fails with the error of that lookup;
otherwise each of the four descriptor fields is the authentication parameter when that is
not empty and the trigger metadata value otherwise, the descriptor being returned when a
password is resolved and the error "no password given" when none is. -/
theorem structured_fields_fallback (h : Helpers) (config : ScalerConfig) (q v : String)
    (n : Int)
    (hq : config.TriggerMetadata.lookup "query" = some q)
    (hv : config.TriggerMetadata.lookup "queryValue" = some v)
    (hn : strconv.ParseInt v = (n, none))
    (hc : goIndex config.AuthParams "connectionString" = "")
    (he : goIndex config.TriggerMetadata "connectionStringFromEnv" = "") :
    ((∃ f ∈ ["host", "port", "username", "dbName"],
        goIndex config.AuthParams f = "" ∧ goIndex config.TriggerMetadata f = "") →
      ∃ f ∈ ["host", "port", "username", "dbName"],
        (goIndex config.AuthParams f = "" ∧ goIndex config.TriggerMetadata f = "") ∧
        parseMySQLMetadata h config = .error (.notGiven f)) ∧
    ((∀ f ∈ ["host", "port", "username", "dbName"],
        ¬ (goIndex config.AuthParams f = "" ∧ goIndex config.TriggerMetadata f = "")) →
      (specPassword config = "" →
        parseMySQLMetadata h config = .error (.text "no password given")) ∧
      (specPassword config ≠ "" →
        ∃ m, parseMySQLMetadata h config = .ok m ∧
          m.host = authOrMeta config "host" ∧ m.port = authOrMeta config "port" ∧
          m.username = authOrMeta config "username" ∧
          m.dbName = authOrMeta config "dbName" ∧ m.connectionString = "")) := by
  constructor
  · intro hmiss
    have hmiss2 : ∃ f ∈ ["host", "port", "username", "dbName"], authOrMeta config f = "" := by
      obtain ⟨f, hf, hfe⟩ := hmiss
      exact ⟨f, hf, (authOrMeta_eq_empty_iff config f).mpr hfe⟩
    obtain ⟨f, hf, hfe, hp⟩ := parse_structured_missing h config q v n hq hv hn hc he hmiss2
    exact ⟨f, hf, (authOrMeta_eq_empty_iff config f).mp hfe, hp⟩
  · intro hall
    have hres : ∀ f ∈ ["host", "port", "username", "dbName"],
        GetFromAuthOrMeta config f = .ok (authOrMeta config f) := by
      intro f hf
      rw [GetFromAuthOrMeta_eq, if_pos]
      intro hfe
      exact hall f hf ((authOrMeta_eq_empty_iff config f).mp hfe)
    have hparse := parse_structured h config q v n _ _ _ _ hq hv hn hc he
      (hres "host" (by simp)) (hres "port" (by simp)) (hres "username" (by simp))
      (hres "dbName" (by simp))
    constructor
    · intro hpw
      rw [hparse, if_pos hpw]
    · intro hpw
      rw [hparse, if_neg hpw]
      exact ⟨_, rfl, rfl, rfl, rfl, rfl, rfl⟩

/-- Witness of C5: host and port come from the authentication parameters, username and
dbName from the trigger metadata. -/
theorem structured_fields_fallback_witness :
    ∃ m, parseMySQLMetadata sampleHelpers
        { TriggerMetadata := [("query", "SELECT 1"), ("queryValue", "5"), ("host", "meta-host"),
            ("username", "u"), ("dbName", "d")],
          AuthParams := [("host", "h"), ("port", "3306"), ("password", "p")] } = .ok m ∧
      m.host = "h" ∧ m.port = "3306" ∧ m.username = "u" ∧ m.dbName = "d" ∧
      m.connectionString = "" :=
  ((structured_fields_fallback sampleHelpers
      { TriggerMetadata := [("query", "SELECT 1"), ("queryValue", "5"), ("host", "meta-host"),
          ("username", "u"), ("dbName", "d")],
        AuthParams := [("host", "h"), ("port", "3306"), ("password", "p")] }
      "SELECT 1" "5" 5 (by decide) (by decide) (by decide) (by decide) (by decide)).2
    (by decide)).2 (by decide)

/-- Claim C6. In the structured-field fallback with host, port, username and dbName
resolved, parseMySQLMetadata fails with "no password given" exactly when the
authentication parameter password is empty and passwordFromEnv is empty or names an
environment value that is empty; otherwise it succeeds and the password is the
authentication parameter when that is not empty and the environment value otherwise. A
password present only in the trigger metadata is not read. -/
theorem password_resolution (h : Helpers) (config : ScalerConfig) (q v : String) (n : Int)
    (host port username dbName : String)
    (hq : config.TriggerMetadata.lookup "query" = some q)
    (hv : config.TriggerMetadata.lookup "queryValue" = some v)
    (hn : strconv.ParseInt v = (n, none))
    (hc : goIndex config.AuthParams "connectionString" = "")
    (he : goIndex config.TriggerMetadata "connectionStringFromEnv" = "")
    (hh : GetFromAuthOrMeta config "host" = .ok host)
    (hp : GetFromAuthOrMeta config "port" = .ok port)
    (hu : GetFromAuthOrMeta config "username" = .ok username)
    (hd : GetFromAuthOrMeta config "dbName" = .ok dbName) :
    (parseMySQLMetadata h config = .error (.text "no password given") ↔
      goIndex config.AuthParams "password" = "" ∧
        (goIndex config.TriggerMetadata "passwordFromEnv" = "" ∨
          goIndex config.ResolvedEnv (goIndex config.TriggerMetadata "passwordFromEnv") = "")) ∧
    (¬ (goIndex config.AuthParams "password" = "" ∧
        (goIndex config.TriggerMetadata "passwordFromEnv" = "" ∨
          goIndex config.ResolvedEnv (goIndex config.TriggerMetadata "passwordFromEnv") = "")) →
      ∃ m, parseMySQLMetadata h config = .ok m ∧
        m.password =
          (if goIndex config.AuthParams "password" ≠ "" then goIndex config.AuthParams "password"
           else goIndex config.ResolvedEnv (goIndex config.TriggerMetadata "passwordFromEnv")) ∧
        m.password ≠ "" ∧
        m.host = host ∧ m.port = port ∧ m.username = username ∧ m.dbName = dbName) ∧
    (goIndex config.AuthParams "password" = "" →
      goIndex config.TriggerMetadata "passwordFromEnv" = "" →
      parseMySQLMetadata h config = .error (.text "no password given")) := by
  have hparse := parse_structured h config q v n host port username dbName hq hv hn hc he
    hh hp hu hd
  have hiff := specPassword_eq_empty_iff config
  refine ⟨?_, ?_, ?_⟩
  · rw [hparse, ← hiff]
    by_cases hpw : specPassword config = ""
    · simp [hpw]
    · simp [hpw]
  · intro hnot
    have hpw : specPassword config ≠ "" := fun hx => hnot (hiff.mp hx)
    rw [hparse, if_neg hpw]
    refine ⟨_, rfl, ?_, hpw, rfl, rfl, rfl, rfl⟩
    show specPassword config = _
    unfold specPassword
    by_cases ha : goIndex config.AuthParams "password" = ""
    · have hm : goIndex config.TriggerMetadata "passwordFromEnv" ≠ "" := by
        intro hx
        exact hnot ⟨ha, Or.inl hx⟩
      simp [ha, hm]
    · simp [ha]
  · intro ha hm
    rw [hparse, if_pos (hiff.mpr ⟨ha, Or.inl hm⟩)]

/-- Witness of C6: the password stands only in the trigger metadata, and the result is
the error "no password given". -/
theorem password_resolution_witness :
    parseMySQLMetadata sampleHelpers
      { TriggerMetadata := [("query", "SELECT 1"), ("queryValue", "5"), ("host", "h"),
          ("port", "3306"), ("username", "u"), ("dbName", "d"), ("password", "secret")] } =
      .error (.text "no password given") :=
  (password_resolution sampleHelpers
    { TriggerMetadata := [("query", "SELECT 1"), ("queryValue", "5"), ("host", "h"),
        ("port", "3306"), ("username", "u"), ("dbName", "d"), ("password", "secret")] }
    "SELECT 1" "5" 5 "h" "3306" "u" "d" (by decide) (by decide) (by decide) (by decide)
    (by decide) (by rfl) (by rfl) (by rfl) (by rfl)).2.2 (by decide) (by decide)

theorem resolveLocator_ok_query (config : ScalerConfig) (m0 m : mySQLMetadata)
    (h : resolveLocator config m0 = .ok m) : m.query = m0.query := by
  by_cases hc : goIndex config.AuthParams "connectionString" = ""
  · by_cases he : goIndex config.TriggerMetadata "connectionStringFromEnv" = ""
    · cases hh : GetFromAuthOrMeta config "host" with
      | error e => simp [resolveLocator, hc, he, hh] at h
      | ok host =>
        cases hp : GetFromAuthOrMeta config "port" with
        | error e => simp [resolveLocator, hc, he, hh, hp] at h
        | ok port =>
          cases hu : GetFromAuthOrMeta config "username" with
          | error e => simp [resolveLocator, hc, he, hh, hp, hu] at h
          | ok username =>
            cases hd : GetFromAuthOrMeta config "dbName" with
            | error e => simp [resolveLocator, hc, he, hh, hp, hu, hd] at h
            | ok dbName =>
              by_cases h1 : goIndex config.AuthParams "password" = ""
              · by_cases h2 : goIndex config.TriggerMetadata "passwordFromEnv" = ""
                · simp only [resolveLocator, hc, he, hh, hp, hu, hd, h1, h2, ne_eq,
                    not_true_eq_false, not_false_eq_true, if_true, if_false] at h
                  split at h
                  · cases h
                  · cases h; rfl
                · simp only [resolveLocator, hc, he, hh, hp, hu, hd, h1, h2, ne_eq,
                    not_true_eq_false, not_false_eq_true, if_true, if_false] at h
                  split at h
                  · cases h
                  · cases h; rfl
              · simp only [resolveLocator, hc, he, hh, hp, hu, hd, h1, ne_eq,
                  not_true_eq_false, not_false_eq_true, if_true, if_false] at h
                split at h
                · cases h
                · cases h; rfl
    · simp [resolveLocator, hc, he] at h
      subst h
      rfl
  · simp [resolveLocator, hc] at h
    subst h
    rfl

theorem parse_ok_inv (h : Helpers) (config : ScalerConfig) (m : mySQLMetadata)
    (hm : parseMySQLMetadata h config = .ok m) :
    ∃ q v n m1, config.TriggerMetadata.lookup "query" = some q ∧
      config.TriggerMetadata.lookup "queryValue" = some v ∧
      strconv.ParseInt v = (n, none) ∧
      resolveLocator config { query := q, queryValue := n } = .ok m1 ∧
      m.connectionString = m1.connectionString ∧ m.host = m1.host ∧ m.port = m1.port ∧
      m.username = m1.username ∧ m.password = m1.password ∧ m.query = m1.query ∧
      m.queryValue = m1.queryValue ∧
      m.dbName = (if m1.connectionString ≠ "" then
        parseMySQLDbNameFromConnectionStr m1.connectionString else m1.dbName) := by
  unfold parseMySQLMetadata at hm
  cases hq : config.TriggerMetadata.lookup "query" with
  | none => simp [hq] at hm
  | some q =>
    cases hv : config.TriggerMetadata.lookup "queryValue" with
    | none => simp [hq, hv] at hm
    | some v =>
      rcases hn : strconv.ParseInt v with ⟨n, _ | err⟩
      · cases hr : resolveLocator config { query := q, queryValue := n } with
        | error e => simp [hq, hv, hn, hr] at hm
        | ok m1 =>
          refine ⟨q, v, n, m1, rfl, rfl, hn, hr, ?_⟩
          simp only [hq, hv, hn, hr] at hm
          simp only [Except.ok.injEq] at hm
          subst hm
          by_cases hcs : m1.connectionString = ""
          · simp [hcs]
          · simp [hcs]
      · simp [hq, hv, hn] at hm

theorem parse_ok_query (h : Helpers) (config : ScalerConfig) (m : mySQLMetadata)
    (hm : parseMySQLMetadata h config = .ok m) :
    config.TriggerMetadata.lookup "query" = some m.query := by
  obtain ⟨q, v, n, m1, hq, _, _, hr, _, _, _, _, _, hmq, _⟩ := parse_ok_inv h config m hm
  rw [hq, hmq, resolveLocator_ok_query config _ m1 hr]

theorem resolveLocator_ok_cases (config : ScalerConfig) (q : String) (n : Int)
    (m : mySQLMetadata)
    (h : resolveLocator config { query := q, queryValue := n } = .ok m) :
    (m.connectionString ≠ "" ∧ m.host = "" ∧ m.port = "" ∧ m.username = "" ∧
      m.password = "") ∨
    (m.connectionString = "" ∧ m.host ≠ "" ∧ m.port ≠ "" ∧ m.username ≠ "" ∧
      m.dbName ≠ "" ∧ m.password ≠ "") ∨
    (goIndex config.AuthParams "connectionString" = "" ∧
      goIndex config.TriggerMetadata "connectionStringFromEnv" ≠ "" ∧
      goIndex config.ResolvedEnv (goIndex config.TriggerMetadata "connectionStringFromEnv") = "" ∧
      m.connectionString = "" ∧ m.host = "" ∧ m.port = "" ∧ m.username = "" ∧
      m.dbName = "" ∧ m.password = "") := by
  by_cases hc : goIndex config.AuthParams "connectionString" = ""
  · by_cases he : goIndex config.TriggerMetadata "connectionStringFromEnv" = ""
    · cases hh : GetFromAuthOrMeta config "host" with
      | error e => simp [resolveLocator, hc, he, hh] at h
      | ok host =>
        cases hp : GetFromAuthOrMeta config "port" with
        | error e => simp [resolveLocator, hc, he, hh, hp] at h
        | ok port =>
          cases hu : GetFromAuthOrMeta config "username" with
          | error e => simp [resolveLocator, hc, he, hh, hp, hu] at h
          | ok username =>
            cases hd : GetFromAuthOrMeta config "dbName" with
            | error e => simp [resolveLocator, hc, he, hh, hp, hu, hd] at h
            | ok dbName =>
              rw [resolveLocator_structured config _ host port username dbName rfl hc he
                hh hp hu hd] at h
              right; left
              split at h
              · cases h
              · rename_i hpw
                cases h
                exact ⟨rfl, (GetFromAuthOrMeta_ok_ne_empty config _ _ hh).1,
                  (GetFromAuthOrMeta_ok_ne_empty config _ _ hp).1,
                  (GetFromAuthOrMeta_ok_ne_empty config _ _ hu).1,
                  (GetFromAuthOrMeta_ok_ne_empty config _ _ hd).1, hpw⟩
    · simp only [resolveLocator, hc, he, ne_eq, not_true_eq_false, not_false_eq_true, if_true,
        if_false] at h
      cases h
      by_cases hr : goIndex config.ResolvedEnv
          (goIndex config.TriggerMetadata "connectionStringFromEnv") = ""
      · right; right
        exact ⟨hc, he, hr, hr, rfl, rfl, rfl, rfl, rfl⟩
      · left
        exact ⟨hr, rfl, rfl, rfl, rfl⟩
  · simp only [resolveLocator, hc, ne_eq, not_false_eq_true, if_true] at h
    cases h
    left
    exact ⟨hc, rfl, rfl, rfl, rfl⟩

theorem parse_ok_locator_cases (h : Helpers) (config : ScalerConfig) (m : mySQLMetadata)
    (hm : parseMySQLMetadata h config = .ok m) :
    (m.connectionString ≠ "" ∧ m.host = "" ∧ m.port = "" ∧ m.username = "" ∧
      m.password = "") ∨
    (m.connectionString = "" ∧ m.host ≠ "" ∧ m.port ≠ "" ∧ m.username ≠ "" ∧
      m.dbName ≠ "" ∧ m.password ≠ "") ∨
    (goIndex config.AuthParams "connectionString" = "" ∧
      goIndex config.TriggerMetadata "connectionStringFromEnv" ≠ "" ∧
      goIndex config.ResolvedEnv (goIndex config.TriggerMetadata "connectionStringFromEnv") = "" ∧
      m.connectionString = "" ∧ m.host = "" ∧ m.port = "" ∧ m.username = "" ∧
      m.dbName = "" ∧ m.password = "") := by
  obtain ⟨q, v, n, m1, _, _, _, hr, hcs, hh, hp, hu, hpw, _, _, hdb⟩ :=
    parse_ok_inv h config m hm
  rcases resolveLocator_ok_cases config q n m1 hr with h1 | h2 | h3
  · left
    rw [hcs, hh, hp, hu, hpw]
    exact h1
  · right; left
    rw [hcs, hh, hp, hu, hpw, hdb, if_neg (by simp [h2.1])]
    exact h2
  · right; right
    rw [hcs, hh, hp, hu, hpw, hdb, if_neg (by simp [h3.2.2.2.1])]
    exact h3

theorem splitChars_ne_nil (sep : Char) (cs : List Char) : splitChars sep cs ≠ [] := by
  cases cs with
  | nil => simp [splitChars]
  | cons c rest =>
    unfold splitChars
    split
    · simp
    · split <;> simp

theorem splitChars_no_sep (sep : Char) (cs : List Char) (hno : sep ∉ cs) :
    splitChars sep cs = [cs] := by
  induction cs with
  | nil => rfl
  | cons c rest ih =>
    have hc : c ≠ sep := fun hx => hno (by simp [hx])
    have hrest : sep ∉ rest := fun hx => hno (List.mem_cons_of_mem _ hx)
    simp [splitChars, hc, ih hrest]

theorem parseMySQLDbName_no_slash (s : String) (hno : '/' ∉ s.data) :
    parseMySQLDbNameFromConnectionStr s = s := by
  simp [parseMySQLDbNameFromConnectionStr, stringsSplit, splitChars_no_sep '/' s.data hno]

theorem stringsSplit_length_pos (s : String) (sep : Char) : (stringsSplit s sep).length > 0 := by
  unfold stringsSplit
  rw [List.length_map]
  exact List.length_pos.mpr (splitChars_ne_nil sep s.data)

/-- Claim C2, at the input that breaks it. A connectionStringFromEnv naming a variable
the resolved environment does not hold makes parseMySQLMetadata succeed with a descriptor
in which the connection string and every structured field are empty: neither locator
form is active. -/
theorem unresolved_env_gives_no_locator (h : Helpers) :
    parseMySQLMetadata h
      { TriggerMetadata :=
          [("query", "SELECT 1"), ("queryValue", "5"), ("connectionStringFromEnv", "CONN")] } =
      .ok { query := "SELECT 1", queryValue := 5,
            connectionString := "", host := "", port := "", username := "", password := "",
            dbName := "",
            metricName := h.GenerateMetricNameWithIndex 0 (h.NormalizeString "mysql-") } := by
  rfl

/-- Claim C8, as the code has it. When parseMySQLMetadata returns an error,
NewMySQLScaler returns an error and no scaler, leaves the state of the connections as it
was (no sql.Open, no Ping) and does not depend on the database; the error wraps the
cause as "error parsing MySQL metadata: " when GetMetricTargetType accepts the
configuration and is the error "error getting scaler metric type: " of that earlier step
when it does not. -/
theorem config_error_before_connection (h : Helpers) (drv : SqlDriver) (config : ScalerConfig)
    (w : SqlState) (e : GoError) (he : parseMySQLMetadata h config = .error e) :
    (∃ e1, NewMySQLScaler h drv config w = (.error e1, w)) ∧
    (NewMySQLScaler h drv config w).2.attempts = w.attempts ∧
    (∀ drv1, NewMySQLScaler h drv1 config w = NewMySQLScaler h drv config w) ∧
    (∀ t, h.GetMetricTargetType config = .ok t →
      NewMySQLScaler h drv config w =
        (.error (.wrapped "error parsing MySQL metadata: " e), w)) ∧
    (∀ e0, h.GetMetricTargetType config = .error e0 →
      NewMySQLScaler h drv config w =
        (.error (.wrapped "error getting scaler metric type: " e0), w)) := by
  have hN := fun d => NewMySQLScaler_of_parse_error h d config w e he
  refine ⟨?_, ?_, ?_, ?_, ?_⟩
  · rw [hN drv]
    cases h.GetMetricTargetType config with
    | error e0 => exact ⟨_, rfl⟩
    | ok t => exact ⟨_, rfl⟩
  · rw [hN drv]
    cases h.GetMetricTargetType config with
    | error e0 => rfl
    | ok t => rfl
  · intro drv1
    rw [hN drv1, hN drv]
  · intro t ht
    rw [hN drv, ht]
  · intro e0 ht
    rw [hN drv, ht]

/-- Witness of C8: a configuration without query and with no metric type. -/
theorem config_error_before_connection_witness :
    NewMySQLScaler sampleHelpers healthyDriver { TriggerMetadata := [("queryValue", "5")] } {} =
      (.error (.wrapped "error parsing MySQL metadata: " (.text "no query given")), {}) :=
  (config_error_before_connection sampleHelpers healthyDriver
    { TriggerMetadata := [("queryValue", "5")] } {} (.text "no query given")
    (by rfl)).2.2.2.1 "AverageValue" (by rfl)

/-- Counterexample to C8 as stated: with a metric type that GetMetricTargetType refuses,
parseMySQLMetadata fails (no query) and the error of NewMySQLScaler is the one of the
metric type, not the wrapped parsing error. -/
theorem config_error_not_always_wrapped :
    parseMySQLMetadata sampleHelpers { MetricType := "Utilization" } =
      .error (.text "no query given") ∧
    NewMySQLScaler sampleHelpers healthyDriver { MetricType := "Utilization" } {} =
      (.error (.wrapped "error getting scaler metric type: " (.text "unsupported metric type")),
        {}) ∧
    NewMySQLScaler sampleHelpers healthyDriver { MetricType := "Utilization" } {} ≠
      (.error (.wrapped "error parsing MySQL metadata: " (.text "no query given")), {}) := by
  refine ⟨rfl, rfl, ?_⟩
  intro hx
  have h1 : NewMySQLScaler sampleHelpers healthyDriver { MetricType := "Utilization" } {} =
      (.error (.wrapped "error getting scaler metric type: " (.text "unsupported metric type")),
        {}) := rfl
  rw [h1] at hx
  simp at hx

/-- Claim C9, as the code has it. When parseMySQLMetadata succeeds, the query of the
descriptor is the value stored under the key query of the trigger metadata, a key that is
present; it is not empty exactly when that value is not. -/
theorem query_is_the_given_value (h : Helpers) (config : ScalerConfig) (m : mySQLMetadata)
    (hm : parseMySQLMetadata h config = .ok m) :
    config.TriggerMetadata.lookup "query" = some m.query ∧
      (m.query ≠ "" ↔ goIndex config.TriggerMetadata "query" ≠ "") := by
  have hq := parse_ok_query h config m hm
  refine ⟨hq, ?_⟩
  simp [goIndex, hq]

/-- Witness of C9: the descriptor of a configuration with an explicit connection string
carries the query given. -/
theorem query_is_the_given_value_witness :
    List.lookup "query" [("query", "SELECT 1"), ("queryValue", "5")] = some "SELECT 1" :=
  (query_is_the_given_value sampleHelpers
    { TriggerMetadata := [("query", "SELECT 1"), ("queryValue", "5")],
      AuthParams := [("connectionString", "u:p@tcp(h:3306)/db")] }
    { connectionString := "u:p@tcp(h:3306)/db", dbName := "db", query := "SELECT 1",
      queryValue := 5, metricName := "s0-mysql-db" } (by rfl)).1

/-- Counterexample to C9 as stated: a query key holding the empty string is accepted and
the descriptor has an empty query. -/
theorem empty_query_is_accepted :
    ∃ m, parseMySQLMetadata sampleHelpers
        { TriggerMetadata := [("query", ""), ("queryValue", "5")],
          AuthParams := [("connectionString", "u:p@tcp(h:3306)/db")] } = .ok m ∧
      m.query = "" :=
  ⟨_, rfl, rfl⟩

/-- Claim C10, at the inputs that break it. For the empty connection string, and for any
connection string without a slash, parseMySQLDbNameFromConnectionStr returns the string
itself and not the literal "dbname": the split always has at least one piece, so the
fallback is never reached. -/
theorem dbname_fallback_is_never_taken :
    parseMySQLDbNameFromConnectionStr "" = "" ∧
    parseMySQLDbNameFromConnectionStr "" ≠ "dbname" ∧
    parseMySQLDbNameFromConnectionStr "localhost" = "localhost" ∧
    (∀ s : String, (stringsSplit s '/').length > 0) ∧
    (∀ s : String, '/' ∉ s.data → parseMySQLDbNameFromConnectionStr s = s) := by
  refine ⟨by decide, by decide, by decide, ?_, ?_⟩
  · intro s
    exact stringsSplit_length_pos s '/'
  · intro s hs
    exact parseMySQLDbName_no_slash s hs

/-! ## The database name and the metric name -/

theorem splitChars_append_sep (sep : Char) (p d : List Char) :
    splitChars sep (p ++ sep :: d) = splitChars sep p ++ splitChars sep d := by
  induction p with
  | nil => simp [splitChars]
  | cons c p ih =>
    by_cases hc : c = sep
    · simp [splitChars, hc, ih]
    · simp only [List.cons_append, splitChars, if_neg hc, ih]
      cases hp : splitChars sep p with
      | nil => exact absurd hp (splitChars_ne_nil sep p)
      | cons seg segs => simp [ih, hp]

theorem getD_last_of_append (l : List String) (x dflt : String) :
    (l ++ [x]).getD ((l ++ [x]).length - 1) dflt = x := by
  simp [List.getD_eq_getElem?_getD]

theorem parseMySQLDbName_of_decomposition (p d : List Char) (hd : '/' ∉ d) :
    parseMySQLDbNameFromConnectionStr (String.mk (p ++ '/' :: d)) = String.mk d := by
  unfold parseMySQLDbNameFromConnectionStr stringsSplit
  simp only [splitChars_append_sep, splitChars_no_sep '/' d hd, List.map_append, List.map_cons,
    List.map_nil]
  rw [if_pos (by simp)]
  exact getD_last_of_append _ _ _

theorem exists_last_sep (sep : Char) (cs : List Char) (h : sep ∈ cs) :
    ∃ p d, cs = p ++ sep :: d ∧ sep ∉ d := by
  induction cs with
  | nil => simp at h
  | cons c rest ih =>
    by_cases hr : sep ∈ rest
    · obtain ⟨p, d, hpd, hd⟩ := ih hr
      exact ⟨c :: p, d, by simp [hpd], hd⟩
    · have hc : sep = c := by
        rcases List.mem_cons.mp h with h1 | h1
        · exact h1
        · exact absurd h1 hr
      exact ⟨[], rest, by simp [hc], hr⟩

/-- Claim C11. For a connection string that contains a slash,
parseMySQLDbNameFromConnectionStr returns its last piece: a string without a slash that
ends the connection string right after a slash, and the only such string. The connection
string "tcp(host:3306)/mydb" gives "mydb". -/
theorem dbname_is_last_segment (s : String) (hs : '/' ∈ s.data) :
    '/' ∉ (parseMySQLDbNameFromConnectionStr s).data ∧
    (∃ p : String, s = p ++ "/" ++ parseMySQLDbNameFromConnectionStr s) ∧
    (∀ p d : String, '/' ∉ d.data → s = p ++ "/" ++ d →
      d = parseMySQLDbNameFromConnectionStr s) ∧
    parseMySQLDbNameFromConnectionStr "tcp(host:3306)/mydb" = "mydb" := by
  obtain ⟨p, d, hpd, hd⟩ := exists_last_sep '/' s.data hs
  have hs_eq : s = String.mk (p ++ '/' :: d) := by
    rw [← hpd]
  have hres : parseMySQLDbNameFromConnectionStr s = String.mk d := by
    rw [hs_eq]
    exact parseMySQLDbName_of_decomposition p d hd
  refine ⟨?_, ?_, ?_, by decide⟩
  · rw [hres]
    exact hd
  · refine ⟨String.mk p, ?_⟩
    rw [hres, hs_eq]
    apply String.ext
    simp
  · intro p1 d1 hd1 hs1
    have h1 : s = String.mk (p1.data ++ '/' :: d1.data) := by
      rw [hs1]
      apply String.ext
      simp
    rw [h1, parseMySQLDbName_of_decomposition p1.data d1.data hd1]

/-- Witness of C11: a connection string whose password contains a slash. -/
theorem dbname_is_last_segment_witness :
    ∃ p : String, "u:p/w@tcp(h:3306)/shop" =
      p ++ "/" ++ parseMySQLDbNameFromConnectionStr "u:p/w@tcp(h:3306)/shop" :=
  (dbname_is_last_segment "u:p/w@tcp(h:3306)/shop" (by decide)).2.1

theorem parse_ok_metricName (h : Helpers) (config : ScalerConfig) (m : mySQLMetadata)
    (hm : parseMySQLMetadata h config = .ok m) :
    m.metricName = h.GenerateMetricNameWithIndex config.ScalerIndex
      (h.NormalizeString ("mysql-" ++ m.dbName)) := by
  unfold parseMySQLMetadata at hm
  cases hq : config.TriggerMetadata.lookup "query" with
  | none => simp [hq] at hm
  | some q =>
    cases hv : config.TriggerMetadata.lookup "queryValue" with
    | none => simp [hq, hv] at hm
    | some v =>
      rcases hn : strconv.ParseInt v with ⟨n, _ | err⟩
      · cases hr : resolveLocator config { query := q, queryValue := n } with
        | error e => simp [hq, hv, hn, hr] at hm
        | ok m1 =>
          simp only [hq, hv, hn, hr] at hm
          simp only [Except.ok.injEq] at hm
          subst hm
          rfl
      · simp [hq, hv, hn] at hm

theorem parse_preformed_succeeds (h : Helpers) (config : ScalerConfig) (q v : String) (n : Int)
    (hq : config.TriggerMetadata.lookup "query" = some q)
    (hv : config.TriggerMetadata.lookup "queryValue" = some v)
    (hn : strconv.ParseInt v = (n, none))
    (hloc : goIndex config.AuthParams "connectionString" ≠ "" ∨
      goIndex config.TriggerMetadata "connectionStringFromEnv" ≠ "") :
    ∃ m, parseMySQLMetadata h config = .ok m := by
  rw [parse_after_values h config q v n hq hv hn]
  by_cases hc : goIndex config.AuthParams "connectionString" = ""
  · have he : goIndex config.TriggerMetadata "connectionStringFromEnv" ≠ "" := by
      rcases hloc with h1 | h1
      · exact absurd hc h1
      · exact h1
    simp only [resolveLocator, hc, he, ne_eq, not_true_eq_false, not_false_eq_true, if_true,
      if_false]
    exact ⟨_, rfl⟩
  · simp only [resolveLocator, hc, ne_eq, not_false_eq_true, if_true]
    exact ⟨_, rfl⟩

/-- Claim C12. When parseMySQLMetadata succeeds with a connection string that is not
empty, the dbName of the descriptor is the name parseMySQLDbNameFromConnectionStr extracts
from that connection string, whatever dbName the authentication parameters or the trigger
metadata hold, and the metricName is GenerateMetricNameWithIndex of the ScalerIndex and
the normalized "mysql-" followed by that name. With a query, a valid queryValue and a
connection string given explicitly or through the environment, parseMySQLMetadata always
succeeds: the extraction adds no failure. -/
theorem preformed_locator_names (h : Helpers) (config : ScalerConfig) (m : mySQLMetadata)
    (hm : parseMySQLMetadata h config = .ok m) (hcs : m.connectionString ≠ "") :
    m.dbName = parseMySQLDbNameFromConnectionStr m.connectionString ∧
    m.metricName = h.GenerateMetricNameWithIndex config.ScalerIndex
      (h.NormalizeString ("mysql-" ++ parseMySQLDbNameFromConnectionStr m.connectionString)) ∧
    (∀ (config1 : ScalerConfig) (q v : String) (n : Int),
      config1.TriggerMetadata.lookup "query" = some q →
      config1.TriggerMetadata.lookup "queryValue" = some v →
      strconv.ParseInt v = (n, none) →
      (goIndex config1.AuthParams "connectionString" ≠ "" ∨
        goIndex config1.TriggerMetadata "connectionStringFromEnv" ≠ "") →
      ∃ m1, parseMySQLMetadata h config1 = .ok m1) := by
  obtain ⟨q, v, n, m1, _, _, _, _, hcs1, _, _, _, _, _, _, hdb⟩ := parse_ok_inv h config m hm
  have hdbName : m.dbName = parseMySQLDbNameFromConnectionStr m.connectionString := by
    rw [hdb, ← hcs1, if_pos hcs]
  refine ⟨hdbName, ?_, ?_⟩
  · rw [parse_ok_metricName h config m hm, ← hdbName]
  · intro config1 q1 v1 n1 hq hv hn hloc
    exact parse_preformed_succeeds h config1 q1 v1 n1 hq hv hn hloc

/-- Witness of C12: the dbName of the authentication parameters is overridden by the one
in the connection string. -/
theorem preformed_locator_names_witness :
    ("shop" : String) = parseMySQLDbNameFromConnectionStr "u:p@tcp(h:3306)/shop" :=
  (preformed_locator_names sampleHelpers
    { TriggerMetadata := [("query", "SELECT 1"), ("queryValue", "5")],
      AuthParams := [("connectionString", "u:p@tcp(h:3306)/shop"), ("dbName", "other")] }
    { connectionString := "u:p@tcp(h:3306)/shop", dbName := "shop", query := "SELECT 1",
      queryValue := 5, metricName := "s0-mysql-shop" } (by rfl) (by decide)).1

theorem digitChar_toNat (k : Nat) (hk : k < 10) :
    (Nat.digitChar k).toNat - '0'.toNat = k ∧ isDigit (Nat.digitChar k) = true := by
  interval_cases k <;> decide

theorem foldl_toDigitsCore (fuel n : Nat) (ds : List Char) (hf : n < fuel) :
    (Nat.toDigitsCore 10 fuel n ds).foldl (fun a c => a * 10 + (c.toNat - '0'.toNat)) 0 =
      ds.foldl (fun a c => a * 10 + (c.toNat - '0'.toNat)) n := by
  induction fuel generalizing n ds with
  | zero => omega
  | succ fuel ih =>
    have hd := (digitChar_toNat (n % 10) (Nat.mod_lt _ (by norm_num))).1
    unfold Nat.toDigitsCore
    by_cases h0 : n / 10 = 0
    · have hn : n % 10 = n := by omega
      simp only [h0, if_true, List.foldl_cons, hd, Nat.zero_mul, Nat.zero_add]
      rw [hn]
    · simp only [h0, if_false]
      rw [ih (n / 10) _ (by omega)]
      simp only [List.foldl_cons, hd]
      congr 1
      omega

theorem decimalValue_toDigits (n : Nat) : decimalValue (Nat.toDigits 10 n) = n := by
  unfold decimalValue Nat.toDigits
  rw [foldl_toDigitsCore (n + 1) n [] (by omega)]
  rfl

theorem toDigitsCore_all_digits (fuel n : Nat) (ds : List Char)
    (hds : ∀ c ∈ ds, isDigit c = true) :
    ∀ c ∈ Nat.toDigitsCore 10 fuel n ds, isDigit c = true := by
  induction fuel generalizing n ds with
  | zero => simpa [Nat.toDigitsCore] using hds
  | succ fuel ih =>
    have hd := (digitChar_toNat (n % 10) (Nat.mod_lt _ (by norm_num))).2
    have hcons : ∀ c ∈ Nat.digitChar (n % 10) :: ds, isDigit c = true := by
      intro c hc
      rcases List.mem_cons.mp hc with h1 | h1
      · rw [h1]; exact hd
      · exact hds c h1
    unfold Nat.toDigitsCore
    by_cases h0 : n / 10 = 0
    · simpa only [h0, if_true] using hcons
    · simp only [h0, if_false]
      exact ih _ _ hcons

theorem formatInt_injective (i j : Int) (hij : formatInt i = formatInt j) : i = j := by
  unfold formatInt at hij
  have hminus : isDigit '-' = false := by decide
  have hdata := congrArg String.data hij
  by_cases hi : i < 0
  · by_cases hj : j < 0
    · simp only [hi, hj, if_true, List.cons.injEq, true_and] at hdata
      have := congrArg decimalValue hdata
      rw [decimalValue_toDigits, decimalValue_toDigits] at this
      omega
    · simp only [hi, hj, if_true, if_false] at hdata
      have hmem : '-' ∈ Nat.toDigits 10 j.toNat := by rw [← hdata]; simp
      have := toDigitsCore_all_digits _ _ [] (by simp) '-' hmem
      rw [hminus] at this
      cases this
  · by_cases hj : j < 0
    · simp only [hi, hj, if_true, if_false] at hdata
      have hmem : '-' ∈ Nat.toDigits 10 i.toNat := by rw [hdata]; simp
      have := toDigitsCore_all_digits _ _ [] (by simp) '-' hmem
      rw [hminus] at this
      cases this
    · simp only [hi, hj, if_false] at hdata
      have := congrArg decimalValue hdata
      rw [decimalValue_toDigits, decimalValue_toDigits] at this
      omega

theorem GenerateMetricNameWithIndex_injective (i j : Int) (name : String)
    (hij : GenerateMetricNameWithIndex i name = GenerateMetricNameWithIndex j name) : i = j := by
  unfold GenerateMetricNameWithIndex at hij
  have hd := congrArg String.data hij
  simp only [String.data_append, List.append_assoc] at hd
  have h1 := List.append_cancel_left hd
  have h2 := List.append_cancel_right h1
  exact formatInt_injective i j (String.ext h2)

theorem parse_dbName_index_free (h : Helpers) (config : ScalerConfig) (i j : Int)
    (mi mj : mySQLMetadata)
    (hi : parseMySQLMetadata h { config with ScalerIndex := i } = .ok mi)
    (hj : parseMySQLMetadata h { config with ScalerIndex := j } = .ok mj) :
    mi.dbName = mj.dbName := by
  obtain ⟨qi, vi, ni, ri, hqi, hvi, hni, hri, _, _, _, _, _, _, _, hdi⟩ :=
    parse_ok_inv h _ mi hi
  obtain ⟨qj, vj, nj, rj, hqj, hvj, hnj, hrj, _, _, _, _, _, _, _, hdj⟩ :=
    parse_ok_inv h _ mj hj
  have hq : qi = qj := Option.some.inj (hqi.symm.trans hqj)
  have hv : vi = vj := Option.some.inj (hvi.symm.trans hvj)
  subst hq
  subst hv
  have hn : ni = nj := by
    have := hni.symm.trans hnj
    exact (Prod.mk.inj this).1
  subst hn
  have hr : ri = rj := Except.ok.inj (hri.symm.trans hrj)
  subst hr
  rw [hdi, hdj]

/-- Claim C13. Two configurations that differ only in their ScalerIndex, i and j with
i ≠ j, and on which parseMySQLMetadata succeeds, resolve to the same database name and
get different metric names, each containing the decimal rendering of its own index; the
renderings of the indices 0 and 1 are "0" and "1". -/
theorem metric_names_differ_by_index (h : Helpers) (config : ScalerConfig) (i j : Int)
    (mi mj : mySQLMetadata)
    (hg : h.GenerateMetricNameWithIndex = GenerateMetricNameWithIndex)
    (hij : i ≠ j)
    (hi : parseMySQLMetadata h { config with ScalerIndex := i } = .ok mi)
    (hj : parseMySQLMetadata h { config with ScalerIndex := j } = .ok mj) :
    mi.dbName = mj.dbName ∧ mi.metricName ≠ mj.metricName ∧
    (∃ pre post, mi.metricName = pre ++ formatInt i ++ post) ∧
    (∃ pre post, mj.metricName = pre ++ formatInt j ++ post) ∧
    formatInt 0 = "0" ∧ formatInt 1 = "1" := by
  have hdb := parse_dbName_index_free h config i j mi mj hi hj
  have hmi := parse_ok_metricName h _ mi hi
  have hmj := parse_ok_metricName h _ mj hj
  rw [hg] at hmi hmj
  refine ⟨hdb, ?_, ⟨"s", "-" ++ h.NormalizeString ("mysql-" ++ mi.dbName), ?_⟩,
    ⟨"s", "-" ++ h.NormalizeString ("mysql-" ++ mj.dbName), ?_⟩, by decide, by decide⟩
  · intro heq
    rw [hmi, hmj, hdb] at heq
    exact hij (GenerateMetricNameWithIndex_injective i j _ heq)
  · rw [hmi]
    simp [GenerateMetricNameWithIndex, String.append_assoc]
  · rw [hmj]
    simp [GenerateMetricNameWithIndex, String.append_assoc]

/-- Witness of C13: the same trigger under the indices 0 and 1. -/
theorem metric_names_differ_by_index_witness :
    ("s0-mysql-shop" : String) ≠ "s1-mysql-shop" :=
  (metric_names_differ_by_index namingHelpers
    { TriggerMetadata := [("query", "SELECT 1"), ("queryValue", "5")],
      AuthParams := [("connectionString", "u:p@tcp(h:3306)/shop")] } 0 1
    { connectionString := "u:p@tcp(h:3306)/shop", dbName := "shop", query := "SELECT 1",
      queryValue := 5, metricName := "s0-mysql-shop" }
    { connectionString := "u:p@tcp(h:3306)/shop", dbName := "shop", query := "SELECT 1",
      queryValue := 5, metricName := "s1-mysql-shop" }
    rfl (by decide) (by rfl) (by rfl)).2.1

/-! ## Activity and metrics -/

/-- Claim C14. When the query evaluation returns the value v without error, IsActive
returns v > 0 and no error: true for every positive v, false for 0 and for every negative
v. When the evaluation returns the error e, IsActive returns false together with e. -/
theorem isActive_classifies (qb : QueryBackend) (s : mySQLScaler) :
    (∀ v, qb.scan s.connection s.metadata.query = .ok v →
      s.IsActive qb = (decide (v > 0), none) ∧
      (0 < v → s.IsActive qb = (true, none)) ∧
      (v ≤ 0 → s.IsActive qb = (false, none))) ∧
    (∀ e, qb.scan s.connection s.metadata.query = .error e →
      s.IsActive qb = (false, some e)) := by
  constructor
  · intro v hv
    have hact : s.IsActive qb = (decide (v > 0), none) := by
      simp [mySQLScaler.IsActive, mySQLScaler.getQueryResult, hv]
    refine ⟨hact, ?_, ?_⟩
    · intro hpos
      rw [hact]
      simp [hpos]
    · intro hneg
      rw [hact]
      simp [hneg]
  · intro e he
    simp [mySQLScaler.IsActive, mySQLScaler.getQueryResult, he]

/-- Witness of C14: a negative value returned without error is inactive. -/
theorem isActive_classifies_witness :
    mySQLScaler.IsActive (constantBackend (-3))
      { metricType := "AverageValue", metadata := { query := "SELECT 1" },
        connection := ⟨0, "dsn"⟩ } = (false, none) :=
  (((isActive_classifies (constantBackend (-3))
    { metricType := "AverageValue", metadata := { query := "SELECT 1" },
      connection := ⟨0, "dsn"⟩ }).1 (-3) rfl).2.2) (by decide)

/-- Claim C15. When the query evaluation returns the value v without error, GetMetrics
returns no error and exactly one sample, whose value is v and whose MetricName is the
name passed in. When the evaluation returns an error, GetMetrics returns an empty
sequence together with the error "error inspecting MySQL: " followed by the cause. -/
theorem getMetrics_sample (qb : QueryBackend) (now : Nat) (s : mySQLScaler) (n : String) :
    (∀ v, qb.scan s.connection s.metadata.query = .ok v →
      s.GetMetrics qb now n = ([{ MetricName := n, Value := v, Timestamp := now }], none)) ∧
    (∀ e, qb.scan s.connection s.metadata.query = .error e →
      s.GetMetrics qb now n = ([], some (.wrapped "error inspecting MySQL: " e)) ∧
      ∀ quote t, (GoError.wrapped "error inspecting MySQL: " e).Error quote t =
        "error inspecting MySQL: " ++ e.Error quote t) := by
  constructor
  · intro v hv
    simp [mySQLScaler.GetMetrics, mySQLScaler.getQueryResult, hv]
  · intro e he
    constructor
    · simp [mySQLScaler.GetMetrics, mySQLScaler.getQueryResult, he]
    · intro quote t
      rfl

/-- Witness of C15: the value 7 under the name asked for. -/
theorem getMetrics_sample_witness :
    mySQLScaler.GetMetrics (constantBackend 7) 100
      { metricType := "AverageValue", metadata := { query := "SELECT 1" },
        connection := ⟨0, "dsn"⟩ } "s0-mysql-d" =
      ([{ MetricName := "s0-mysql-d", Value := 7, Timestamp := 100 }], none) :=
  (getMetrics_sample (constantBackend 7) 100
    { metricType := "AverageValue", metadata := { query := "SELECT 1" },
      connection := ⟨0, "dsn"⟩ } "s0-mysql-d").1 7 rfl

/-- Claim C16. GetMetricSpecForScaling returns exactly one metric spec, of external
type, whose metric name is the metricName of the descriptor and whose target is
GetMetricTarget of the scaler's metric type and the queryValue: the threshold, held as
Value under the target type Value and as AverageValue otherwise. The method takes no
database and so performs no query. -/
theorem metricSpec_declares_threshold (s : mySQLScaler) :
    s.GetMetricSpecForScaling =
      [{ Type_ := externalMetricType,
         External := some
           { Metric := { Name := s.metadata.metricName },
             Target := GetMetricTarget s.metricType s.metadata.queryValue } }] ∧
    s.GetMetricSpecForScaling.length = 1 ∧
    (GetMetricTarget s.metricType s.metadata.queryValue).Type_ = s.metricType ∧
    (if s.metricType = "Value" then
      (GetMetricTarget s.metricType s.metadata.queryValue).Value = some s.metadata.queryValue ∧
      (GetMetricTarget s.metricType s.metadata.queryValue).AverageValue = none
     else
      (GetMetricTarget s.metricType s.metadata.queryValue).AverageValue =
        some s.metadata.queryValue ∧
      (GetMetricTarget s.metricType s.metadata.queryValue).Value = none) := by
  refine ⟨rfl, rfl, ?_, ?_⟩
  · unfold GetMetricTarget
    split <;> rfl
  · unfold GetMetricTarget
    by_cases ht : s.metricType = "Value"
    · simp [ht]
    · simp [ht]

/-! ## The end-to-end scenario -/

theorem NewMySQLScaler_of_healthy (h : Helpers) (drv : SqlDriver) (config : ScalerConfig)
    (w : SqlState) (t : String) (m : mySQLMetadata)
    (ht : h.GetMetricTargetType config = .ok t)
    (hm : parseMySQLMetadata h config = .ok m)
    (hopen : drv.openError (metadataToConnectionStr m) = none)
    (hping : drv.pingError (metadataToConnectionStr m) = none) :
    NewMySQLScaler h drv config w =
      (.ok { metricType := t, metadata := m,
             connection := ⟨w.opened.length, metadataToConnectionStr m⟩ },
       { w with attempts := w.attempts + 1,
                opened := w.opened ++ [⟨w.opened.length, metadataToConnectionStr m⟩],
                pings := w.pings + 1 }) := by
  simp [NewMySQLScaler, ht, hm, newMySQLConnection, sqlOpen, hopen, DB.Ping, hping]

/-- Claim C17. For a configuration that gives the query "SELECT count(*) FROM q", the
queryValue "5", host "h", port "3306", username "u", dbName "d" and the password "p", and
no connection string, parseMySQLMetadata succeeds with queryValue 5 and the structured
locator (h, 3306, u, p, d); with a database that accepts the connection and answers the
query with 7, the scaler NewMySQLScaler builds gives IsActive true, GetMetrics one sample
of value 7 and a GetMetricSpecForScaling target of 5. -/
theorem end_to_end_scenario (h : Helpers) (drv : SqlDriver) (qb : QueryBackend)
    (config : ScalerConfig) (w : SqlState) (t : String)
    (hq : config.TriggerMetadata.lookup "query" = some "SELECT count(*) FROM q")
    (hv : config.TriggerMetadata.lookup "queryValue" = some "5")
    (hc : goIndex config.AuthParams "connectionString" = "")
    (he : goIndex config.TriggerMetadata "connectionStringFromEnv" = "")
    (hhost : authOrMeta config "host" = "h")
    (hport : authOrMeta config "port" = "3306")
    (huser : authOrMeta config "username" = "u")
    (hdb : authOrMeta config "dbName" = "d")
    (hpw : specPassword config = "p")
    (ht : h.GetMetricTargetType config = .ok t)
    (hopen : drv.openError "u:p@tcp(h:3306)/d" = none)
    (hping : drv.pingError "u:p@tcp(h:3306)/d" = none)
    (hscan : ∀ db, qb.scan db "SELECT count(*) FROM q" = .ok 7) :
    ∃ m s w1, parseMySQLMetadata h config = .ok m ∧
      m.query = "SELECT count(*) FROM q" ∧ m.queryValue = 5 ∧ m.connectionString = "" ∧
      m.host = "h" ∧ m.port = "3306" ∧ m.username = "u" ∧ m.password = "p" ∧
      m.dbName = "d" ∧
      NewMySQLScaler h drv config w = (.ok s, w1) ∧ s.metadata = m ∧ s.metricType = t ∧
      s.IsActive qb = (true, none) ∧
      (∀ now name, s.GetMetrics qb now name =
        ([{ MetricName := name, Value := 7, Timestamp := now }], none)) ∧
      ∃ src, s.GetMetricSpecForScaling = [{ Type_ := externalMetricType, External := some src }] ∧
        src.Metric.Name = m.metricName ∧ src.Target = GetMetricTarget t 5 ∧
        (src.Target.Value = some 5 ∨ src.Target.AverageValue = some 5) := by
  have hres : ∀ f x, authOrMeta config f = x → x ≠ "" → GetFromAuthOrMeta config f = .ok x := by
    intro f x hf hx
    rw [GetFromAuthOrMeta_eq, hf, if_pos hx]
  have hparse := parse_structured h config "SELECT count(*) FROM q" "5" 5 "h" "3306" "u" "d"
    hq hv (by decide) hc he (hres _ _ hhost (by decide)) (hres _ _ hport (by decide))
    (hres _ _ huser (by decide)) (hres _ _ hdb (by decide))
  rw [hpw, if_neg (by decide)] at hparse
  have hdsn : metadataToConnectionStr
      { host := "h", port := "3306", username := "u", dbName := "d", password := "p",
        query := "SELECT count(*) FROM q", queryValue := 5,
        metricName := h.GenerateMetricNameWithIndex config.ScalerIndex
          (h.NormalizeString ("mysql-" ++ "d")) } = "u:p@tcp(h:3306)/d" := by
    rfl
  have hnew := NewMySQLScaler_of_healthy h drv config w t _ ht hparse
    (by rw [hdsn]; exact hopen) (by rw [hdsn]; exact hping)
  refine ⟨_, _, _, hparse, rfl, rfl, rfl, rfl, rfl, rfl, rfl, rfl, hnew, rfl, rfl, ?_, ?_, ?_⟩
  · simp [mySQLScaler.IsActive, mySQLScaler.getQueryResult, hscan]
  · intro now name
    simp [mySQLScaler.GetMetrics, mySQLScaler.getQueryResult, hscan]
  · refine ⟨_, rfl, rfl, rfl, ?_⟩
    unfold GetMetricTarget
    by_cases htv : t = "Value"
    · left; simp [htv]
    · right; simp [htv]

/-- Witness of C17: the password comes from the authentication parameters, the other
fields from the trigger metadata. -/
theorem end_to_end_scenario_witness :
    ∃ m s w1, parseMySQLMetadata sampleHelpers
        { TriggerMetadata := [("query", "SELECT count(*) FROM q"), ("queryValue", "5"),
            ("host", "h"), ("port", "3306"), ("username", "u"), ("dbName", "d")],
          AuthParams := [("password", "p")] } = .ok m ∧
      m.queryValue = 5 ∧
      NewMySQLScaler sampleHelpers healthyDriver
        { TriggerMetadata := [("query", "SELECT count(*) FROM q"), ("queryValue", "5"),
            ("host", "h"), ("port", "3306"), ("username", "u"), ("dbName", "d")],
          AuthParams := [("password", "p")] } {} = (.ok s, w1) ∧
      s.IsActive (constantBackend 7) = (true, none) :=
  match end_to_end_scenario sampleHelpers healthyDriver (constantBackend 7)
    { TriggerMetadata := [("query", "SELECT count(*) FROM q"), ("queryValue", "5"),
        ("host", "h"), ("port", "3306"), ("username", "u"), ("dbName", "d")],
      AuthParams := [("password", "p")] } {} "AverageValue"
    (by decide) (by decide) (by decide) (by decide) (by decide) (by decide) (by decide)
    (by decide) (by decide) rfl rfl rfl (fun _ => rfl) with
  | ⟨m, s, w1, hm, _, hqv, _, _, _, _, _, _, hnew, _, _, hact, _⟩ =>
    ⟨m, s, w1, hm, hqv, hnew, hact⟩

/-! ## The connection -/

theorem metadataToConnectionStr_structured (m : mySQLMetadata) (hcs : m.connectionString = "") :
    metadataToConnectionStr m =
      mysqlConfig.FormatDSN
        { User := m.username, Passwd := m.password, Net := "tcp",
          Addr := m.host ++ ":" ++ m.port, DBName := m.dbName } := by
  simp [metadataToConnectionStr, hcs]

theorem FormatDSN_tcp (user passwd addr dbName : String) (haddr : addr ≠ "") :
    mysqlConfig.FormatDSN
        { User := user, Passwd := passwd, Net := "tcp", Addr := addr, DBName := dbName } =
      (if user = "" then "" else if passwd = "" then user ++ "@" else user ++ ":" ++ passwd ++ "@")
        ++ "tcp(" ++ addr ++ ")/" ++ dbName := by
  have hnet : ("tcp" : String).length > 0 := by decide
  have haddr1 : addr.length > 0 := by
    rcases Nat.eq_zero_or_pos addr.length with h0 | h0
    · exact absurd ((string_length_eq_zero addr).mp h0) haddr
    · exact h0
  unfold mysqlConfig.FormatDSN
  simp only [hnet, haddr1, if_true]
  by_cases hu : user = ""
  · subst hu
    simp [String.append_assoc]
  · have hu1 : user.length > 0 := by
      rcases Nat.eq_zero_or_pos user.length with h0 | h0
      · exact absurd ((string_length_eq_zero user).mp h0) hu
      · exact h0
    by_cases hp : passwd = ""
    · subst hp
      simp [hu, hu1, String.append_assoc]
    · have hp1 : passwd.length > 0 := by
        rcases Nat.eq_zero_or_pos passwd.length with h0 | h0
        · exact absurd ((string_length_eq_zero passwd).mp h0) hp
        · exact h0
      simp [hu, hp, hu1, hp1, String.append_assoc]

theorem addr_ne_empty (host port : String) : host ++ ":" ++ port ≠ "" := by
  intro hx
  have := congrArg String.length hx
  simp at this
  exact absurd this.1.2 (by decide)

/-- Claim C18, as the code has it. metadataToConnectionStr returns the connectionString
of the descriptor unchanged when it is not empty; otherwise it returns the DSN that the
driver formats from its default config with User, Passwd, Net "tcp", Addr host:port and
DBName set from the descriptor, which is "username:password@tcp(host:port)/dbName" when
username and password are not empty, "username@tcp(host:port)/dbName" when only the
password is empty, and "tcp(host:port)/dbName" when the username is empty. -/
theorem connection_string_construction (m : mySQLMetadata) :
    (m.connectionString ≠ "" → metadataToConnectionStr m = m.connectionString) ∧
    (m.connectionString = "" →
      metadataToConnectionStr m =
        mysqlConfig.FormatDSN
          { User := m.username, Passwd := m.password, Net := "tcp",
            Addr := m.host ++ ":" ++ m.port, DBName := m.dbName } ∧
      (m.username ≠ "" → m.password ≠ "" →
        metadataToConnectionStr m =
          m.username ++ ":" ++ m.password ++ "@" ++ "tcp(" ++ (m.host ++ ":" ++ m.port) ++ ")/"
            ++ m.dbName) ∧
      (m.username ≠ "" → m.password = "" →
        metadataToConnectionStr m =
          m.username ++ "@" ++ "tcp(" ++ (m.host ++ ":" ++ m.port) ++ ")/" ++ m.dbName) ∧
      (m.username = "" →
        metadataToConnectionStr m =
          "tcp(" ++ (m.host ++ ":" ++ m.port) ++ ")/" ++ m.dbName)) := by
  constructor
  · intro hcs
    simp [metadataToConnectionStr, hcs]
  · intro hcs
    have hfmt := metadataToConnectionStr_structured m hcs
    refine ⟨hfmt, ?_, ?_, ?_⟩
    · intro hu hp
      rw [hfmt, FormatDSN_tcp _ _ _ _ (addr_ne_empty m.host m.port), if_neg hu, if_neg hp]
    · intro hu hp
      rw [hfmt, FormatDSN_tcp _ _ _ _ (addr_ne_empty m.host m.port), if_neg hu, if_pos hp]
    · intro hu
      rw [hfmt, FormatDSN_tcp _ _ _ _ (addr_ne_empty m.host m.port), if_pos hu]
      simp [String.append_assoc]

/-- Witness of C18: the descriptor of the structured locator (h, 3306, u, p, d). -/
theorem connection_string_construction_witness :
    metadataToConnectionStr
      { host := "h", port := "3306", username := "u", password := "p", dbName := "d" } =
      "u" ++ ":" ++ "p" ++ "@" ++ "tcp(" ++ ("h" ++ ":" ++ "3306") ++ ")/" ++ "d" :=
  ((connection_string_construction
    { host := "h", port := "3306", username := "u", password := "p", dbName := "d" }).2
    (by decide)).2.1 (by decide) (by decide)

/-- Counterexample to C18 as stated: for the descriptor parseMySQLMetadata returns when
connectionStringFromEnv names a variable that is not set, every field of the locator is
empty and the DSN is "tcp(:)/", not ":@tcp(:)/". -/
theorem empty_user_dsn_has_no_credentials :
    parseMySQLMetadata sampleHelpers
      { TriggerMetadata :=
          [("query", "SELECT 1"), ("queryValue", "5"), ("connectionStringFromEnv", "CONN")] } =
      .ok { query := "SELECT 1", queryValue := 5, metricName := "s0-mysql-" } ∧
    metadataToConnectionStr { query := "SELECT 1", queryValue := 5, metricName := "s0-mysql-" } =
      "tcp(:)/" ∧
    metadataToConnectionStr { query := "SELECT 1", queryValue := 5, metricName := "s0-mysql-" } ≠
      "" ++ ":" ++ "" ++ "@tcp(" ++ "" ++ ":" ++ "" ++ ")/" ++ "" := by
  refine ⟨rfl, by decide, by decide⟩

/-- Claim C19, as the code has it. When opening the handle succeeds and the probe fails,
newMySQLConnection returns the error of the probe and no handle, and the handle it opened
is left as it is: it is among the opened handles and no handle has been closed. When the
probe succeeds, it returns that handle, open, and no error. -/
theorem probe_failure_returns_error (drv : SqlDriver) (m : mySQLMetadata) (w : SqlState)
    (hopen : drv.openError (metadataToConnectionStr m) = none) :
    (∀ err, drv.pingError (metadataToConnectionStr m) = some err →
      newMySQLConnection drv m w =
        (.error err,
         { w with attempts := w.attempts + 1,
                  opened := w.opened ++ [⟨w.opened.length, metadataToConnectionStr m⟩],
                  pings := w.pings + 1 }) ∧
      (newMySQLConnection drv m w).2.closed = w.closed ∧
      (⟨w.opened.length, metadataToConnectionStr m⟩ : DB) ∈ (newMySQLConnection drv m w).2.opened) ∧
    (drv.pingError (metadataToConnectionStr m) = none →
      newMySQLConnection drv m w =
        (.ok ⟨w.opened.length, metadataToConnectionStr m⟩,
         { w with attempts := w.attempts + 1,
                  opened := w.opened ++ [⟨w.opened.length, metadataToConnectionStr m⟩],
                  pings := w.pings + 1 }) ∧
      (newMySQLConnection drv m w).2.closed = w.closed) := by
  constructor
  · intro err hping
    have hres : newMySQLConnection drv m w =
        (.error err,
         { w with attempts := w.attempts + 1,
                  opened := w.opened ++ [⟨w.opened.length, metadataToConnectionStr m⟩],
                  pings := w.pings + 1 }) := by
      simp [newMySQLConnection, sqlOpen, hopen, DB.Ping, hping]
    refine ⟨hres, ?_, ?_⟩
    · rw [hres]
    · rw [hres]
      simp
  · intro hping
    have hres : newMySQLConnection drv m w =
        (.ok ⟨w.opened.length, metadataToConnectionStr m⟩,
         { w with attempts := w.attempts + 1,
                  opened := w.opened ++ [⟨w.opened.length, metadataToConnectionStr m⟩],
                  pings := w.pings + 1 }) := by
      simp [newMySQLConnection, sqlOpen, hopen, DB.Ping, hping]
    exact ⟨hres, by rw [hres]⟩

/-- Witness of C19: a database that accepts the data source name and answers the probe. -/
theorem probe_failure_returns_error_witness :
    newMySQLConnection healthyDriver { connectionString := "u:p@tcp(h:3306)/d" } {} =
      (.ok ⟨0, "u:p@tcp(h:3306)/d"⟩,
       { attempts := 1, opened := [⟨0, "u:p@tcp(h:3306)/d"⟩], pings := 1, closed := [] }) :=
  ((probe_failure_returns_error healthyDriver { connectionString := "u:p@tcp(h:3306)/d" } {}
    rfl).2 rfl).1

/-- Counterexample to C19 as stated: the probe fails, the handle 0 has been opened, and
after newMySQLConnection has returned the error no handle is closed. -/
theorem probe_failure_does_not_close :
    newMySQLConnection unreachableDriver { connectionString := "u:p@tcp(h:3306)/d" } {} =
      (.error (.driver "connection refused"),
       { attempts := 1, opened := [⟨0, "u:p@tcp(h:3306)/d"⟩], pings := 1, closed := [] }) ∧
    (0 : Nat) ∉
      (newMySQLConnection unreachableDriver { connectionString := "u:p@tcp(h:3306)/d" } {}).2.closed := by
  refine ⟨rfl, ?_⟩
  have hres : newMySQLConnection unreachableDriver { connectionString := "u:p@tcp(h:3306)/d" } {} =
      (.error (.driver "connection refused"),
       { attempts := 1, opened := [⟨0, "u:p@tcp(h:3306)/d"⟩], pings := 1, closed := [] }) := rfl
  rw [hres]
  simp

theorem FormatDSN_data (cfg : mysqlConfig) :
    ∃ pre : List Char, cfg.FormatDSN = String.mk (pre ++ '/' :: cfg.DBName.data) := by
  have hbuf : ∃ buf : String, cfg.FormatDSN = buf ++ "/" ++ cfg.DBName := ⟨_, rfl⟩
  obtain ⟨buf, hb⟩ := hbuf
  refine ⟨buf.data, ?_⟩
  rw [hb]
  apply String.ext
  simp

theorem parseMySQLDbName_of_structured (m : mySQLMetadata) (hcs : m.connectionString = "")
    (hdb : '/' ∉ m.dbName.data) :
    parseMySQLDbNameFromConnectionStr (metadataToConnectionStr m) = m.dbName ∧
      metadataToConnectionStr m ≠ "" := by
  rw [metadataToConnectionStr_structured m hcs]
  obtain ⟨pre, hpre⟩ := FormatDSN_data
    { User := m.username, Passwd := m.password, Net := "tcp",
      Addr := m.host ++ ":" ++ m.port, DBName := m.dbName }
  rw [hpre]
  constructor
  · exact parseMySQLDbName_of_decomposition pre m.dbName.data hdb
  · intro hx
    have := congrArg String.data hx
    simp at this

/-- Claim C20. For a descriptor with an empty connectionString whose dbName has no slash,
parseMySQLDbNameFromConnectionStr of the string metadataToConnectionStr builds is the
dbName. Hence a trigger configured with structured fields and a trigger, with the same
ScalerIndex, whose connection string is that synthesized string resolve to the same
database name and the same metricName. -/
theorem locator_round_trip (m : mySQLMetadata) (hcs : m.connectionString = "")
    (hdb : '/' ∉ m.dbName.data) :
    parseMySQLDbNameFromConnectionStr (metadataToConnectionStr m) = m.dbName ∧
    (∀ (h : Helpers) (configA configB : ScalerConfig) (mB : mySQLMetadata),
      parseMySQLMetadata h configA = .ok m →
      parseMySQLMetadata h configB = .ok mB →
      configB.ScalerIndex = configA.ScalerIndex →
      mB.connectionString = metadataToConnectionStr m →
      mB.dbName = m.dbName ∧ mB.metricName = m.metricName) ∧
    (∀ (h : Helpers) (configB : ScalerConfig) (q v : String) (n : Int),
      configB.TriggerMetadata.lookup "query" = some q →
      configB.TriggerMetadata.lookup "queryValue" = some v →
      strconv.ParseInt v = (n, none) →
      goIndex configB.AuthParams "connectionString" = metadataToConnectionStr m →
      ∃ mB, parseMySQLMetadata h configB = .ok mB ∧
        mB.connectionString = metadataToConnectionStr m ∧ mB.dbName = m.dbName) := by
  obtain ⟨hround, hne⟩ := parseMySQLDbName_of_structured m hcs hdb
  refine ⟨hround, ?_, ?_⟩
  · intro h configA configB mB hA hB hidx hconn
    obtain ⟨_, _, _, m1, _, _, _, _, hcs1, _, _, _, _, _, _, hdb1⟩ := parse_ok_inv h configB mB hB
    have hdbB : mB.dbName = m.dbName := by
      rw [hdb1, ← hcs1, hconn, if_pos hne, hround]
    refine ⟨hdbB, ?_⟩
    rw [parse_ok_metricName h configB mB hB, parse_ok_metricName h configA m hA, hdbB, hidx]
  · intro h configB q v n hq hv hn hconn
    have hc : goIndex configB.AuthParams "connectionString" ≠ "" := by
      rw [hconn]
      exact hne
    have hp : parseMySQLMetadata h configB = .ok
        { connectionString := goIndex configB.AuthParams "connectionString"
          dbName := parseMySQLDbNameFromConnectionStr
            (goIndex configB.AuthParams "connectionString")
          query := q
          queryValue := n
          metricName := h.GenerateMetricNameWithIndex configB.ScalerIndex
            (h.NormalizeString ("mysql-" ++ parseMySQLDbNameFromConnectionStr
              (goIndex configB.AuthParams "connectionString"))) } := by
      simp [parseMySQLMetadata, hq, hv, hn, resolveLocator, hc]
    refine ⟨_, hp, hconn, ?_⟩
    show parseMySQLDbNameFromConnectionStr (goIndex configB.AuthParams "connectionString") = _
    rw [hconn]
    exact hround

/-- Witness of C20: the structured locator (h, 3306, u, p, d) and its synthesized
connection string. -/
theorem locator_round_trip_witness :
    parseMySQLDbNameFromConnectionStr
      (metadataToConnectionStr
        { host := "h", port := "3306", username := "u", password := "p", dbName := "d" }) = "d" :=
  (locator_round_trip
    { host := "h", port := "3306", username := "u", password := "p", dbName := "d" }
    (by decide) (by decide)).1

end MySQLScaler
